import Mathlib

/-!
# Verification of the rdvb DVB scanning library

A shallow embedding, in Lean 4, of the parts of the rdvb source that the
verified properties speak about:

* `bands.rs` — frequency band tables and their iterator;
* `mpeg/mod.rs` — section (packet) header decoding;
* `si/pat.rs` — Program Association Table decoding;
* `mpeg/descriptors/*.rs` — descriptor dispatch and the individual decoders;
* `interpret.rs` — channel projection and the LCN sort;
* `scan.rs` — the transponder deduplication step of `scan_channel`;
* `demux.rs` — batched single-packet acquisition, modelled as an event trace;
* `frontend/mod.rs` — the `wait_for_lock` poll loop, over an injected clock.

Machine integers are modelled as `Nat` (`Int` where the source uses signed
types); byte buffers are `List Nat`.  Code that can panic (out-of-bounds
indexing, failed `assert!`, `unwrap`) is modelled in `Option`, with `none`
for the panic.  Rust `while` loops are modelled with an explicit fuel
argument that strictly dominates the number of iterations the loop can
make, so every definition stays executable by `decide`/`rfl`.
-/

namespace Rdvb

/-- `u16::from_be_bytes([hi, lo])`. -/
def u16be (hi lo : Nat) : Nat := hi * 256 + lo

/-- `u32::from_be_bytes([a, b, c, d])`. -/
def u32be (a b c d : Nat) : Nat := ((a * 256 + b) * 256 + c) * 256 + d

/-- `&buf[offset..]` (`to_vec`): panics when `offset > buf.len()`. -/
def sliceFrom (buf : List Nat) (offset : Nat) : Option (List Nat) :=
  if offset ≤ buf.length then some (buf.drop offset) else none

/-- `&buf[lo..hi]` (`to_vec`): panics when `hi > buf.len()` (here always `lo ≤ hi`). -/
def sliceRange (buf : List Nat) (lo hi : Nat) : Option (List Nat) :=
  if lo ≤ hi ∧ hi ≤ buf.length then some ((buf.drop lo).take (hi - lo)) else none

/-!
## Frequency bands (`bands.rs`)
-/

/-- `frontend/properties/set.rs`: the bandwidth values settable on a frontend
(`Bandwidth` there, imported as `BandwidthHz` by `bands.rs` and `interpret.rs`). -/
inductive BandwidthHz where
  | _1_172MHz
  | _5MHz
  | _6MHz
  | _7MHz
  | _8MHz
  | _10MHz
deriving DecidableEq

/-- `Bandwidth::value` in `frontend/properties/set.rs`. -/
def BandwidthHz.value : BandwidthHz → Nat
  | ._1_172MHz => 1712000
  | ._5MHz => 5000000
  | ._6MHz => 6000000
  | ._7MHz => 7000000
  | ._8MHz => 8000000
  | ._10MHz => 10000000

/-- `bands.rs` `ChannelParameters`.  The source field `display_prefix`
(the tag shown before the traditional channel number) is named `display_tag`
here. -/
structure ChannelParameters where
  frequency : Nat
  bandwidth : BandwidthHz
  number : Option Nat
  display_tag : String
deriving DecidableEq

/-- `bands.rs` `BroadcastBand`. -/
structure BroadcastBand where
  first_frequency : Nat
  first_channel : Nat
  last_channel : Nat
  bandwidth : BandwidthHz
  display_tag : String
deriving DecidableEq

/-- `BroadcastBand::channel_count`. -/
def BroadcastBand.channel_count (b : BroadcastBand) : Nat :=
  b.last_channel - b.first_channel + 1

/-- `bands.rs` `FrequencyIter`. -/
structure FrequencyIter where
  band : BroadcastBand
  current_channel : Nat

/-- `<FrequencyIter as Iterator>::next`. -/
def FrequencyIter.next (it : FrequencyIter) : Option (ChannelParameters × FrequencyIter) :=
  if it.current_channel > it.band.last_channel then
    none
  else
    let frequency := it.band.first_frequency +
      (it.current_channel - it.band.first_channel) * it.band.bandwidth.value
    let number := some it.current_channel
    some (⟨frequency, it.band.bandwidth, number, it.band.display_tag⟩,
      ⟨it.band, it.current_channel + 1⟩)

/-- Draining the iterator into a list (what `FRANCE_UHF.iter().collect()`
does).  `fuel` bounds the number of `next` calls; `BroadcastBand.toList`
passes one more than the number of items the iterator can yield. -/
def FrequencyIter.collect : Nat → FrequencyIter → List ChannelParameters
  | 0, _ => []
  | fuel + 1, it =>
    match it.next with
    | none => []
    | some (c, it2) => c :: FrequencyIter.collect fuel it2

/-- `BroadcastBand::iter`. -/
def BroadcastBand.iter (b : BroadcastBand) : FrequencyIter :=
  ⟨b, b.first_channel⟩

/-- All channel parameters of a band, in iteration order. -/
def BroadcastBand.toList (b : BroadcastBand) : List ChannelParameters :=
  FrequencyIter.collect (b.channel_count + 1) b.iter

/-- `bands.rs` `EUROPE_UHF_BAND_IV_V`. -/
def EUROPE_UHF_BAND_IV_V : BroadcastBand :=
  { first_frequency := 474000000
    first_channel := 21
    last_channel := 68
    bandwidth := ._8MHz
    display_tag := "" }

/-- `bands.rs` `FRANCE_CORRECTION`. -/
def FRANCE_CORRECTION : Nat := 166000

/-- `bands.rs` `FRANCE_UHF`. -/
def FRANCE_UHF : BroadcastBand :=
  { EUROPE_UHF_BAND_IV_V with
    first_frequency := EUROPE_UHF_BAND_IV_V.first_frequency + FRANCE_CORRECTION
    last_channel := 49 }

/-!
## MPEG sections (`mpeg/mod.rs`)
-/

/-- `mpeg/mod.rs` `PacketHeader`. -/
structure PacketHeader where
  table_id : Nat
  section_syntax_indicator : Bool
  section_length : Nat
  /-- May be used differently depending on section. -/
  identifier : Nat
  version_number : Nat
  current_next_indicator : Bool
  section_number : Nat
  last_section_number : Nat
deriving DecidableEq

/-- `PacketHeader::BUF_LEN`. -/
def PacketHeader.BUF_LEN : Nat := 8

/-- `PacketHeader::from_buf`.  `none` models the panics: short buffer, the
`assert_eq!(buf[1] & 0b0000_1100, 0)`, and `assert!(section_length <= 0x3FD)`. -/
def PacketHeader.from_buf (buf : List Nat) : Option PacketHeader :=
  if buf.length < PacketHeader.BUF_LEN then none
  else
    let b1 := buf.getD 1 0
    if b1 &&& 0b00001100 ≠ 0 then none
    else
      let section_length := u16be (b1 &&& 0b00000011) (buf.getD 2 0)
      if 0x3FD < section_length then none
      else
        some
          { table_id := buf.getD 0 0
            section_syntax_indicator := b1 &&& 0b10000000 != 0
            section_length := section_length
            identifier := u16be (buf.getD 3 0) (buf.getD 4 0)
            version_number := buf.getD 5 0 &&& 0b00111110
            current_next_indicator := buf.getD 5 0 &&& 0b00000001 != 0
            section_number := buf.getD 6 0
            last_section_number := buf.getD 7 0 }

/-- `PacketHeader::payload_len`: `section_length - (5 + 4)` over `u16`.
`none` models the debug-mode panic when the subtraction underflows. -/
def PacketHeader.payload_len (h : PacketHeader) : Option Nat :=
  if h.section_length < 5 + 4 then none else some (h.section_length - (5 + 4))

/-- `mpeg/mod.rs` `Packet`: decoded header, payload bytes (post header, pre
CRC), and the trailing CRC32. -/
structure Packet where
  header : PacketHeader
  data : List Nat
  crc : Nat
deriving DecidableEq

/-!
## Program Association Table (`si/pat.rs`)
-/

/-- `si/pat.rs` `PatValue`. -/
inductive PatValue where
  | Network (pid : Nat)
  | ProgramMap (pid : Nat)
deriving DecidableEq

/-- `si/pat.rs` `PatElement`. -/
structure PatElement where
  program_number : Nat
  value : PatValue
deriving DecidableEq

/-- The `while (current_offset as u16) < packet.header.payload_len()` loop of
`parse_pat`.  One fuel unit per iteration; the offset grows by 4 each turn, so
any fuel above `payloadLen` is enough.  `data[i]` out of bounds is `none`. -/
def patLoop (data : List Nat) (payloadLen : Nat) : Nat → Nat → Option (List PatElement)
  | _, 0 => none
  | offset, fuel + 1 =>
    if offset % 65536 < payloadLen then do
      let b0 ← data[offset]?
      let b1 ← data[offset + 1]?
      let b2 ← data[offset + 2]?
      let b3 ← data[offset + 3]?
      let program_number := u16be b0 b1
      let value := u16be (b2 &&& 0b00011111) b3
      let rest ← patLoop data payloadLen (offset + 4) fuel
      some (⟨program_number,
        if program_number = 0 then .Network value else .ProgramMap value⟩ :: rest)
    else
      some []

/-- `si/pat.rs` `parse_pat`. -/
def parse_pat (packet : Packet) : Option (List PatElement) := do
  let payloadLen ← packet.header.payload_len
  patLoop packet.data payloadLen 0 (payloadLen + 1)

/-- The PAT entry decoded from the 4 bytes at `offset`. -/
def patEntryAt (data : List Nat) (offset : Nat) : PatElement :=
  let program_number := u16be (data.getD offset 0) (data.getD (offset + 1) 0)
  let value := u16be (data.getD (offset + 2) 0 &&& 0b00011111) (data.getD (offset + 3) 0)
  ⟨program_number, if program_number = 0 then .Network value else .ProgramMap value⟩

/-- The PAT section of the C6 scenario: `section_length = 17` gives
`payload_len = 8`, covering the two 4-byte entries
`[0x00,0x00,0xE0,0x10]` and `[0x00,0x01,0xE0,0x20]`. -/
def patExamplePacket : Packet :=
  { header :=
    { table_id := 0
      section_syntax_indicator := true
      section_length := 17
      identifier := 1
      version_number := 0
      current_next_indicator := true
      section_number := 0
      last_section_number := 0 }
    data := [0x00, 0x00, 0xE0, 0x10, 0x00, 0x01, 0xE0, 0x20]
    crc := 0 }

/-!
## DVB text decoding (`mpeg/mod.rs` `decode_stupid_string`) and service types
-/

/-- One step of `String::from_utf8_lossy`, with the standard maximal-subpart
substitution of `U+FFFD` (`0xFFFD`) for invalid sequences.  Output is the list
of decoded Unicode code points.  `fuel` is one unit per decoded character;
the input shrinks by at least one byte per character, so the byte count is
enough fuel. -/
def utf8LossyGo : Nat → List Nat → List Nat
  | _, [] => []
  | 0, _ => []
  | fuel + 1, b0 :: rest =>
    if b0 < 0x80 then b0 :: utf8LossyGo fuel rest
    else if b0 < 0xC2 then 0xFFFD :: utf8LossyGo fuel rest
    else if b0 ≤ 0xDF then
      match rest with
      | [] => [0xFFFD]
      | b1 :: rest1 =>
        if 0x80 ≤ b1 ∧ b1 ≤ 0xBF then
          ((b0 - 0xC0) * 64 + (b1 - 0x80)) :: utf8LossyGo fuel rest1
        else 0xFFFD :: utf8LossyGo fuel (b1 :: rest1)
    else if b0 ≤ 0xEF then
      match rest with
      | [] => [0xFFFD]
      | b1 :: rest1 =>
        if (if b0 = 0xE0 then 0xA0 else 0x80) ≤ b1 ∧ b1 ≤ (if b0 = 0xED then 0x9F else 0xBF) then
          match rest1 with
          | [] => [0xFFFD]
          | b2 :: rest2 =>
            if 0x80 ≤ b2 ∧ b2 ≤ 0xBF then
              ((b0 - 0xE0) * 4096 + (b1 - 0x80) * 64 + (b2 - 0x80)) :: utf8LossyGo fuel rest2
            else 0xFFFD :: utf8LossyGo fuel (b2 :: rest2)
        else 0xFFFD :: utf8LossyGo fuel (b1 :: rest1)
    else if b0 ≤ 0xF4 then
      match rest with
      | [] => [0xFFFD]
      | b1 :: rest1 =>
        if (if b0 = 0xF0 then 0x90 else 0x80) ≤ b1 ∧ b1 ≤ (if b0 = 0xF4 then 0x8F else 0xBF) then
          match rest1 with
          | [] => [0xFFFD]
          | b2 :: rest2 =>
            if 0x80 ≤ b2 ∧ b2 ≤ 0xBF then
              match rest2 with
              | [] => [0xFFFD]
              | b3 :: rest3 =>
                if 0x80 ≤ b3 ∧ b3 ≤ 0xBF then
                  ((b0 - 0xF0) * 262144 + (b1 - 0x80) * 4096 + (b2 - 0x80) * 64 + (b3 - 0x80)) ::
                    utf8LossyGo fuel rest3
                else 0xFFFD :: utf8LossyGo fuel (b3 :: rest3)
            else 0xFFFD :: utf8LossyGo fuel (b2 :: rest2)
        else 0xFFFD :: utf8LossyGo fuel (b1 :: rest1)
    else 0xFFFD :: utf8LossyGo fuel rest

/-- `String::from_utf8_lossy`, as code points. -/
def utf8Lossy (l : List Nat) : List Nat := utf8LossyGo l.length l

/-- `char::is_control` (Unicode category Cc). -/
def char_is_control (c : Nat) : Bool := c < 0x20 || (0x7F ≤ c && c ≤ 0x9F)

/-- `str::trim_matches(|c| c.is_control())`: strip control characters from
both ends. -/
def trim_control (l : List Nat) : List Nat :=
  ((l.dropWhile char_is_control).reverse.dropWhile char_is_control).reverse

/-- `mpeg/mod.rs` `decode_stupid_string`: best-effort lossy UTF-8 conversion,
control characters trimmed; always `Some`. -/
def decode_stupid_string (raw_text : List Nat) : Option (List Nat) :=
  some (trim_control (utf8Lossy raw_text))

/-- `mpeg/mod.rs` `ServiceType` (ETSI EN 300 468 table 89). -/
inductive ServiceType where
  | DigitalTelevision
  | DigitalRadioSound
  | Teletext
  | NvodReference
  | NvodTimeShifted
  | Mosaic
  | FmRadio
  | DvbSrmService
  | AdvancedCodecDigitalRadioSound
  | H264Mosaic
  | DataBroadcast
  | CiReserved
  | RcsMap
  | RcsForwardLinkSignalling
  | DvbMultimediaHomePlatform
  | Mpeg2HdDigitalTelevision
  | H264SdDigitalTelevision
  | H264SdnvodTimeShifted
  | H264SdnvodReference
  | H264HdDigitalTelevision
  | H264HdnvodTimeShifted
  | H264HdnvodReference
  | H264FrameCompatiblePlanoStereoscopicHdDigitalTelevision
  | H264FrameCompatiblePlanoStereoscopicHdnvodTimeShifted
  | H264FrameCompatiblePlanoStereoscopicHdnvodReference
  | HevcDigitalTelevision
  | HevcUhdDigitalTelevision
  | UserDefined (byte : Nat)
  | Reserved (byte : Nat)
deriving DecidableEq

/-- `ServiceType::from_byte`. -/
def ServiceType.from_byte (byte : Nat) : ServiceType :=
  if byte = 0x01 then .DigitalTelevision
  else if byte = 0x02 then .DigitalRadioSound
  else if byte = 0x03 then .Teletext
  else if byte = 0x04 then .NvodReference
  else if byte = 0x05 then .NvodTimeShifted
  else if byte = 0x06 then .Mosaic
  else if byte = 0x07 then .FmRadio
  else if byte = 0x08 then .DvbSrmService
  else if byte = 0x0A then .AdvancedCodecDigitalRadioSound
  else if byte = 0x0B then .H264Mosaic
  else if byte = 0x0C then .DataBroadcast
  else if byte = 0x0D then .CiReserved
  else if byte = 0x0E then .RcsMap
  else if byte = 0x0F then .RcsForwardLinkSignalling
  else if byte = 0x10 then .DvbMultimediaHomePlatform
  else if byte = 0x11 then .Mpeg2HdDigitalTelevision
  else if byte = 0x16 then .H264SdDigitalTelevision
  else if byte = 0x17 then .H264SdnvodTimeShifted
  else if byte = 0x18 then .H264SdnvodReference
  else if byte = 0x19 then .H264HdDigitalTelevision
  else if byte = 0x1A then .H264HdnvodTimeShifted
  else if byte = 0x1B then .H264HdnvodReference
  else if byte = 0x1C then .H264FrameCompatiblePlanoStereoscopicHdDigitalTelevision
  else if byte = 0x1D then .H264FrameCompatiblePlanoStereoscopicHdnvodTimeShifted
  else if byte = 0x1E then .H264FrameCompatiblePlanoStereoscopicHdnvodReference
  else if byte = 0x1F then .HevcDigitalTelevision
  else if byte = 0x20 then .HevcUhdDigitalTelevision
  else if 0x80 ≤ byte ∧ byte ≤ 0xFE then .UserDefined byte
  else .Reserved byte

/-!
## Descriptors (`mpeg/descriptors/*.rs`)

Each module's `DESCRIPTOR_ID` constant and `from_buf` decoder, `none`
modelling the panics of out-of-bounds indexing / slicing.
-/

/-- The `if flag { let r = Some(buf[offset]); offset += 1; r } else { None }`
pattern of the AC-3 decoders: value read (if any) and the updated offset;
`none` when `buf[offset]` is out of bounds. -/
def readFlagByte (buf : List Nat) (flag : Bool) (offset : Nat) : Option (Option Nat × Nat) :=
  if flag then
    match buf[offset]? with
    | none => none
    | some v => some (some v, offset + 1)
  else
    some (none, offset)

/-- `descriptors/iso639_language.rs`. -/
structure Iso639Language where
  language : List Nat
deriving DecidableEq

def Iso639Language.DESCRIPTOR_ID : Nat := 0x0A

/-- `Iso639Language::from_buf`: the explicit `panic!()` on a length other
than 4 is `none`. -/
def Iso639Language.from_buf (buf : List Nat) : Option Iso639Language :=
  if buf.length ≠ 4 then none else some ⟨buf⟩

/-- The named fields of the `Enhanced` variant of
`descriptors/carousel_identifier.rs` `Identifier`. -/
structure CarouselEnhanced where
  module_version : Nat
  module_id : Nat
  block_size : Nat
  module_size : Nat
  compression_method : Nat
  original_size : Nat
  time_out : Nat
  object_key_length : Nat
  object_key_data : List Nat
  private_data_byte : List Nat
deriving DecidableEq

/-- `descriptors/carousel_identifier.rs` `Identifier`. -/
inductive CarouselIdentifierKind where
  | Standard (private_data_bytes : List Nat)
  | Enhanced (fields : CarouselEnhanced)
deriving DecidableEq

/-- `descriptors/carousel_identifier.rs` `CarouselIdentifier`. -/
structure CarouselIdentifier where
  carousel_id : Nat
  identifier : CarouselIdentifierKind
deriving DecidableEq

def CarouselIdentifier.DESCRIPTOR_ID : Nat := 0x13

/-- `CarouselIdentifier::from_buf`; consecutive indexed reads `buf[0]`..`buf[20]`
are rendered as head patterns, a too-short buffer (an indexing panic) is
`none`, as is the `panic!` on an unexpected format id.  `tail` after the first
five bytes is `&buf[5..]`; `rest.take/drop object_key_length` are
`&buf[21..21+okl]` and `&buf[21+okl..]`. -/
def CarouselIdentifier.from_buf (buf : List Nat) : Option CarouselIdentifier :=
  match buf with
  | b0 :: b1 :: b2 :: b3 :: format_id :: tail =>
    let carousel_id := u32be b0 b1 b2 b3
    if format_id = 0 then
      some ⟨carousel_id, .Standard tail⟩
    else if format_id = 1 then
      match tail with
      | module_version :: m0 :: m1 :: s0 :: s1 :: z0 :: z1 :: z2 :: z3 ::
          compression_method :: o0 :: o1 :: o2 :: o3 :: time_out :: object_key_length :: rest =>
        if object_key_length ≤ rest.length then
          some ⟨carousel_id,
            .Enhanced ⟨module_version, u16be m0 m1, u16be s0 s1, u32be z0 z1 z2 z3,
              compression_method, u32be o0 o1 o2 o3, time_out, object_key_length,
              rest.take object_key_length, rest.drop object_key_length⟩⟩
        else none
      | _ => none
    else none
  | _ => none

/-- `descriptors/network_name.rs`. -/
structure NetworkName where
  name : List Nat
deriving DecidableEq

def NetworkName.DESCRIPTOR_ID : Nat := 0x40

def NetworkName.from_buf (buf : List Nat) : Option NetworkName :=
  some ⟨buf⟩

/-- `mpeg/mod.rs` / `descriptors/service_list.rs` `ServiceListDescriptorElement`. -/
structure ServiceListDescriptorElement where
  service_id : Nat
  service_type : ServiceType
deriving DecidableEq

/-- `descriptors/service_list.rs` `ServiceList`. -/
structure ServiceList where
  services : List ServiceListDescriptorElement
deriving DecidableEq

def ServiceList.DESCRIPTOR_ID : Nat := 0x41

/-- The 3-byte entry loop of `ServiceList::from_buf`, suffix-structured: the
loop runs `while offset < buf.len()` and consumes 3 bytes per entry, so a
non-empty suffix shorter than 3 bytes is an indexing panic (`none`). -/
def ServiceList.loop : List Nat → Option (List ServiceListDescriptorElement)
  | [] => some []
  | b0 :: b1 :: b2 :: rest =>
    match ServiceList.loop rest with
    | none => none
    | some es => some (⟨u16be b0 b1, ServiceType.from_byte b2⟩ :: es)
  | _ => none

def ServiceList.from_buf (buf : List Nat) : Option ServiceList :=
  match ServiceList.loop buf with
  | none => none
  | some services => some ⟨services⟩

/-- `descriptors/service.rs` `Service` (the service descriptor). -/
structure Service where
  service_type : ServiceType
  provider : List Nat
  service : List Nat
deriving DecidableEq

def Service.DESCRIPTOR_ID : Nat := 0x48

/-- `Service::from_buf`: service type byte, length-prefixed provider string,
length-prefixed service string, both decoded by `decode_stupid_string`. -/
def Service.from_buf (buf : List Nat) : Option Service :=
  match buf with
  | b0 :: provider_length :: rest =>
    let service_type := ServiceType.from_byte b0
    if provider_length ≤ rest.length then
      let raw_provider := rest.take provider_length
      match rest.drop provider_length with
      | service_length :: rest2 =>
        if service_length ≤ rest2.length then
          let raw_service := rest2.take service_length
          match decode_stupid_string raw_provider, decode_stupid_string raw_service with
          | some provider, some service => some ⟨service_type, provider, service⟩
          | _, _ => none
        else none
      | [] => none
    else none
  | _ => none

/-- `descriptors/stream_identifier.rs`. -/
structure StreamIdentifier where
  component_tag : Nat
deriving DecidableEq

def StreamIdentifier.DESCRIPTOR_ID : Nat := 0x52

def StreamIdentifier.from_buf (buf : List Nat) : Option StreamIdentifier :=
  match buf with
  | component_tag :: _ => some ⟨component_tag⟩
  | [] => none

/-- `descriptors/component.rs`. -/
structure Component where
  stream_content_ext : Nat
  stream_content : Nat
  component_type : Nat
  component_tag : Nat
  language_code : List Nat
  chars : List Nat
deriving DecidableEq

def Component.DESCRIPTOR_ID : Nat := 0x50

def Component.from_buf (buf : List Nat) : Option Component :=
  match buf with
  | b0 :: component_type :: component_tag :: l0 :: l1 :: l2 :: chars =>
    some ⟨b0 &&& 0b11110000, b0 &&& 0b00001111, component_type, component_tag,
      [l0, l1, l2], chars⟩
  | _ => none

/-- `descriptors/terrestrial_delivery_system.rs`. -/
structure TerrestrialDeliverySystem where
  center_frequency : Int
  bandwidth : Nat
  priority : Bool
  time_slicing_indicator : Bool
  mpe_fec_indicator : Bool
  constellation : Nat
  hierarchy_information : Nat
  code_rate_hp_stream : Nat
  code_rate_lp_stream : Nat
  guard_interval : Nat
  transmission_mode : Nat
  other_frequency_flag : Bool
deriving DecidableEq

def TerrestrialDeliverySystem.DESCRIPTOR_ID : Nat := 0x5A

/-- The bit pattern of a `u32` reinterpreted as `i32` (`i32::from_be_bytes`). -/
def i32ofBits (n : Nat) : Int :=
  if n < 2 ^ 31 then (n : Int) else (n : Int) - 2 ^ 32

/-- `TerrestrialDeliverySystem::from_buf`.  The byte order of
`center_frequency` (`[buf[0], buf[2], buf[1], buf[3]]`) is the source's; the
trailing `_reserved` read of bytes 7..10 requires them to be present. -/
def TerrestrialDeliverySystem.from_buf (buf : List Nat) : Option TerrestrialDeliverySystem :=
  match buf with
  | b0 :: b1 :: b2 :: b3 :: b4 :: b5 :: b6 :: _b7 :: _b8 :: _b9 :: _b10 :: _ =>
    some
      { center_frequency := i32ofBits (u32be b0 b2 b1 b3)
        bandwidth := (b4 &&& 0b11100000) >>> 5
        priority := b4 &&& 0b00010000 != 0
        time_slicing_indicator := b4 &&& 0b00001000 != 0
        mpe_fec_indicator := b4 &&& 0b00000100 != 0
        constellation := (b5 &&& 0b11000000) >>> 6
        hierarchy_information := (b5 &&& 0b00111000) >>> 3
        code_rate_hp_stream := b5 &&& 0b00000111
        code_rate_lp_stream := (b6 &&& 0b11100000) >>> 5
        guard_interval := (b6 &&& 0b00011000) >>> 3
        transmission_mode := (b6 &&& 0b00000110) >>> 1
        other_frequency_flag := b6 &&& 0b00000001 != 0 }
  | _ => none

/-- `descriptors/logical_channel.rs` `LogicalChannelDescriptorElement`. -/
structure LogicalChannelDescriptorElement where
  service_id : Nat
  visible_service : Bool
  logical_channel_number : Nat
deriving DecidableEq

/-- `descriptors/logical_channel.rs` `LogicalChannel`. -/
structure LogicalChannel where
  elements : List LogicalChannelDescriptorElement
deriving DecidableEq

def LogicalChannel.DESCRIPTOR_ID : Nat := 0x83

/-- The 4-byte entry loop of `LogicalChannel::from_buf`, suffix-structured
(16-bit service id; 1-bit visible flag and low 2 bits + 1 byte of channel
number, per the source's `& 0b0000_0011` mask). -/
def LogicalChannel.loop : List Nat → Option (List LogicalChannelDescriptorElement)
  | [] => some []
  | b0 :: b1 :: b2 :: b3 :: rest =>
    match LogicalChannel.loop rest with
    | none => none
    | some es =>
      some (⟨u16be b0 b1, b2 &&& 0b10000000 != 0, u16be (b2 &&& 0b00000011) b3⟩ :: es)
  | _ => none

def LogicalChannel.from_buf (buf : List Nat) : Option LogicalChannel :=
  match LogicalChannel.loop buf with
  | none => none
  | some elements => some ⟨elements⟩

/-- `descriptors/enhanced_ac3.rs` `EnhancedAc3ServiceType`. -/
inductive EnhancedAc3ServiceType where
  | CompleteMain
  | MusicAndEffects
  | VisuallyImpaired
  | HearingImpaired
  | Dialogue
  | Commentary
  | Emergency
  | Voiceover
  | Karaoke
  | _Invalid (x y z : Bool)
deriving DecidableEq

/-- `descriptors/enhanced_ac3.rs` `EnhancedAc3ChannelSetup`. -/
inductive EnhancedAc3ChannelSetup where
  | Mono
  | TwoIndependent
  | Stereo
  | SurroundStereoEncoded
  | MultichannelOver2
  | MultichannelOver5Dot1
  | Independent
  | Reserved
deriving DecidableEq

/-- `descriptors/enhanced_ac3.rs` `EnhancedAc3ComponentType`. -/
structure EnhancedAc3ComponentType where
  enhanced : Bool
  full_service : Bool
  service_type : EnhancedAc3ServiceType
  channel_setup : EnhancedAc3ChannelSetup
deriving DecidableEq

/-- The `service_type` match of `EnhancedAc3::from_buf`. -/
def enhancedAc3ServiceTypeOf (x y z full_service : Bool) : EnhancedAc3ServiceType :=
  match x, y, z, full_service with
  | false, false, false, true => .CompleteMain
  | false, false, true, false => .MusicAndEffects
  | false, true, false, _ => .VisuallyImpaired
  | false, true, true, _ => .HearingImpaired
  | true, false, false, false => .Dialogue
  | true, false, true, _ => .Commentary
  | true, true, false, true => .Emergency
  | true, true, true, false => .Voiceover
  | true, true, true, true => .Karaoke
  | x, y, z, _ => ._Invalid x y z

/-- The `channel_setup` match of `EnhancedAc3::from_buf`. -/
def enhancedAc3ChannelSetupOf (x y z : Bool) : EnhancedAc3ChannelSetup :=
  match x, y, z with
  | false, false, false => .Mono
  | false, false, true => .TwoIndependent
  | false, true, false => .Stereo
  | false, true, true => .SurroundStereoEncoded
  | true, false, false => .MultichannelOver2
  | true, false, true => .MultichannelOver5Dot1
  | true, true, false => .Independent
  | true, true, true => .Reserved

/-- The component-type byte decode of `EnhancedAc3::from_buf`. -/
def enhancedAc3ComponentTypeOfByte (byte : Nat) : EnhancedAc3ComponentType :=
  let full_service := byte &&& 0b01000000 != 0
  { enhanced := byte &&& 0b10000000 != 0
    full_service := full_service
    service_type := enhancedAc3ServiceTypeOf (byte &&& 0b00100000 != 0)
      (byte &&& 0b00010000 != 0) (byte &&& 0b00001000 != 0) full_service
    channel_setup := enhancedAc3ChannelSetupOf (byte &&& 0b00100000 != 0)
      (byte &&& 0b00010000 != 0) (byte &&& 0b00001000 != 0) }

/-- `descriptors/enhanced_ac3.rs` `EnhancedAc3`. -/
structure EnhancedAc3 where
  mixinfoexists : Bool
  component_type : Option EnhancedAc3ComponentType
  bsid : Option Nat
  mainid : Option Nat
  asvc : Option Nat
  substream1 : Option Nat
  substream2 : Option Nat
  substream3 : Option Nat
  additional_info : List Nat
deriving DecidableEq

def EnhancedAc3.DESCRIPTOR_ID : Nat := 0x7A

def EnhancedAc3.from_buf (buf : List Nat) : Option EnhancedAc3 :=
  match buf with
  | [] => none
  | b0 :: _ =>
    let mixinfoexists := b0 &&& 0b00001000 != 0
    match (if b0 &&& 0b10000000 != 0 then
        match buf[1]? with
        | none => none
        | some byte => some (some (enhancedAc3ComponentTypeOfByte byte), 2)
      else some ((none : Option EnhancedAc3ComponentType), 1)) with
    | none => none
    | some (component_type, offset) =>
      match readFlagByte buf (b0 &&& 0b01000000 != 0) offset with
      | none => none
      | some (bsid, offset) =>
        match readFlagByte buf (b0 &&& 0b00100000 != 0) offset with
        | none => none
        | some (mainid, offset) =>
          match readFlagByte buf (b0 &&& 0b00010000 != 0) offset with
          | none => none
          | some (asvc, offset) =>
            match readFlagByte buf (b0 &&& 0b00000100 != 0) offset with
            | none => none
            | some (substream1, offset) =>
              match readFlagByte buf (b0 &&& 0b00000010 != 0) offset with
              | none => none
              | some (substream2, offset) =>
                match readFlagByte buf (b0 &&& 0b00000001 != 0) offset with
                | none => none
                | some (substream3, offset) =>
                  match sliceFrom buf offset with
                  | none => none
                  | some additional_info =>
                    some ⟨mixinfoexists, component_type, bsid, mainid, asvc,
                      substream1, substream2, substream3, additional_info⟩

/-- `descriptors/private_data_specifier.rs`. -/
structure PrivateDataSpecifier where
  specifier : Nat
deriving DecidableEq

def PrivateDataSpecifier.DESCRIPTOR_ID : Nat := 0x5F

def PrivateDataSpecifier.from_buf (buf : List Nat) : Option PrivateDataSpecifier :=
  match buf with
  | b0 :: b1 :: b2 :: b3 :: _ => some ⟨u32be b0 b1 b2 b3⟩
  | _ => none

/-- `descriptors/data_broadcast_id.rs`. -/
structure DataBroadcastId where
  data_broadcast_id : Nat
  selector_bytes : List Nat
deriving DecidableEq

def DataBroadcastId.DESCRIPTOR_ID : Nat := 0x66

def DataBroadcastId.from_buf (buf : List Nat) : Option DataBroadcastId :=
  match buf with
  | b0 :: b1 :: selector_bytes => some ⟨u16be b0 b1, selector_bytes⟩
  | _ => none

/-- `descriptors/extension.rs`. -/
structure Extension where
  selector_bytes : List Nat
deriving DecidableEq

def Extension.DESCRIPTOR_ID : Nat := 0x7F

/-- `Extension::from_buf`: `&buf[1..]` (the tag-extension byte skipped);
panics on an empty buffer. -/
def Extension.from_buf (buf : List Nat) : Option Extension :=
  match buf with
  | _tag_extension :: selector_bytes => some ⟨selector_bytes⟩
  | [] => none

/-- `descriptors/subtitling.rs` `SubtitlingElement`. -/
structure SubtitlingElement where
  language_code : List Nat
  subtitling_type : Nat
  composition_page_id : Nat
  ancillary_page_id : Nat
deriving DecidableEq

/-- `descriptors/subtitling.rs` `Subtitling`. -/
structure Subtitling where
  elements : List SubtitlingElement
deriving DecidableEq

def Subtitling.DESCRIPTOR_ID : Nat := 0x59

/-- The 8-byte entry loop of `Subtitling::from_buf`, suffix-structured. -/
def Subtitling.loop : List Nat → Option (List SubtitlingElement)
  | [] => some []
  | l0 :: l1 :: l2 :: subtitling_type :: c0 :: c1 :: a0 :: a1 :: rest =>
    match Subtitling.loop rest with
    | none => none
    | some es =>
      some (⟨[l0, l1, l2], subtitling_type, u16be c0 c1, u16be a0 a1⟩ :: es)
  | _ => none

def Subtitling.from_buf (buf : List Nat) : Option Subtitling :=
  match Subtitling.loop buf with
  | none => none
  | some elements => some ⟨elements⟩

/-- `descriptors/application_signalling.rs` `ApplicationSignallingElement`. -/
structure ApplicationSignallingElement where
  application_type : Nat
  ait_version_number : Nat
deriving DecidableEq

/-- `descriptors/application_signalling.rs` `ApplicationSignalling`. -/
structure ApplicationSignalling where
  elements : List ApplicationSignallingElement
deriving DecidableEq

def ApplicationSignalling.DESCRIPTOR_ID : Nat := 0x6F

/-- The 3-byte entry loop of `ApplicationSignalling::from_buf`,
suffix-structured (15-bit application type, 5-bit AIT version). -/
def ApplicationSignalling.loop : List Nat → Option (List ApplicationSignallingElement)
  | [] => some []
  | b0 :: b1 :: b2 :: rest =>
    match ApplicationSignalling.loop rest with
    | none => none
    | some es => some (⟨u16be (b0 &&& 0b01111111) b1, b2 &&& 0b00011111⟩ :: es)
  | _ => none

def ApplicationSignalling.from_buf (buf : List Nat) : Option ApplicationSignalling :=
  match ApplicationSignalling.loop buf with
  | none => none
  | some elements => some ⟨elements⟩

/-- `descriptors/ac3.rs` `Ac3`. -/
structure Ac3 where
  component_type : Option Nat
  bsid : Option Nat
  mainid : Option Nat
  asvc : Option Nat
  additional_info_byte : List Nat
deriving DecidableEq

def Ac3.DESCRIPTOR_ID : Nat := 0x6A

def Ac3.from_buf (buf : List Nat) : Option Ac3 :=
  match buf with
  | [] => none
  | b0 :: _ =>
    match readFlagByte buf (b0 &&& 0b10000000 != 0) 1 with
    | none => none
    | some (component_type, offset) =>
      match readFlagByte buf (b0 &&& 0b01000000 != 0) offset with
      | none => none
      | some (bsid, offset) =>
        match readFlagByte buf (b0 &&& 0b00100000 != 0) offset with
        | none => none
        | some (mainid, offset) =>
          match readFlagByte buf (b0 &&& 0b00010000 != 0) offset with
          | none => none
          | some (asvc, offset) =>
            match sliceFrom buf offset with
            | none => none
            | some additional_info_byte =>
              some ⟨component_type, bsid, mainid, asvc, additional_info_byte⟩

/-- `mpeg/descriptors/mod.rs` `UnknownDescriptor`. -/
structure UnknownDescriptor where
  descriptor_id : Nat
  raw_data : List Nat
deriving DecidableEq

/-- `mpeg/descriptors/mod.rs` `Descriptor`. -/
inductive Descriptor where
  | NetworkName (d : NetworkName)
  | ServiceList (d : ServiceList)
  | Service (d : Service)
  | StreamIdentifier (d : StreamIdentifier)
  | TerrestrialDeliverySystem (d : TerrestrialDeliverySystem)
  | LogicalChannel (d : LogicalChannel)
  | EnhancedAc3 (d : EnhancedAc3)
  | PrivateDataSpecifier (d : PrivateDataSpecifier)
  | DataBroadcastId (d : DataBroadcastId)
  | Extension (d : Extension)
  | Subtitling (d : Subtitling)
  | Component (d : Component)
  | Iso639Language (d : Iso639Language)
  | ApplicationSignalling (d : ApplicationSignalling)
  | Ac3 (d : Ac3)
  | CarouselIdentifier (d : CarouselIdentifier)
  | _Unknown (d : UnknownDescriptor)
deriving DecidableEq

/-- `Descriptor::read`: dispatch on the tag byte, in the source's arm order;
an unmatched tag yields the `_Unknown` variant carrying the tag and the raw
bytes.  `none` only when the selected decoder panics. -/
def Descriptor.read (descriptor_id : Nat) (buf : List Nat) : Option Descriptor :=
  if descriptor_id = Iso639Language.DESCRIPTOR_ID then
    (Iso639Language.from_buf buf).map .Iso639Language
  else if descriptor_id = CarouselIdentifier.DESCRIPTOR_ID then
    (CarouselIdentifier.from_buf buf).map .CarouselIdentifier
  else if descriptor_id = NetworkName.DESCRIPTOR_ID then
    (NetworkName.from_buf buf).map .NetworkName
  else if descriptor_id = ServiceList.DESCRIPTOR_ID then
    (ServiceList.from_buf buf).map .ServiceList
  else if descriptor_id = Service.DESCRIPTOR_ID then
    (Service.from_buf buf).map .Service
  else if descriptor_id = StreamIdentifier.DESCRIPTOR_ID then
    (StreamIdentifier.from_buf buf).map .StreamIdentifier
  else if descriptor_id = Component.DESCRIPTOR_ID then
    (Component.from_buf buf).map .Component
  else if descriptor_id = TerrestrialDeliverySystem.DESCRIPTOR_ID then
    (TerrestrialDeliverySystem.from_buf buf).map .TerrestrialDeliverySystem
  else if descriptor_id = Subtitling.DESCRIPTOR_ID then
    (Subtitling.from_buf buf).map .Subtitling
  else if descriptor_id = PrivateDataSpecifier.DESCRIPTOR_ID then
    (PrivateDataSpecifier.from_buf buf).map .PrivateDataSpecifier
  else if descriptor_id = DataBroadcastId.DESCRIPTOR_ID then
    (DataBroadcastId.from_buf buf).map .DataBroadcastId
  else if descriptor_id = Ac3.DESCRIPTOR_ID then
    (Ac3.from_buf buf).map .Ac3
  else if descriptor_id = ApplicationSignalling.DESCRIPTOR_ID then
    (ApplicationSignalling.from_buf buf).map .ApplicationSignalling
  else if descriptor_id = EnhancedAc3.DESCRIPTOR_ID then
    (EnhancedAc3.from_buf buf).map .EnhancedAc3
  else if descriptor_id = Extension.DESCRIPTOR_ID then
    (Extension.from_buf buf).map .Extension
  else if descriptor_id = LogicalChannel.DESCRIPTOR_ID then
    (LogicalChannel.from_buf buf).map .LogicalChannel
  else
    some (._Unknown ⟨descriptor_id, buf⟩)

/-- The descriptor tags `Descriptor::read` dispatches to a known decoder, in
the source's arm order. -/
def knownDescriptorTags : List Nat :=
  [Iso639Language.DESCRIPTOR_ID, CarouselIdentifier.DESCRIPTOR_ID,
   NetworkName.DESCRIPTOR_ID, ServiceList.DESCRIPTOR_ID, Service.DESCRIPTOR_ID,
   StreamIdentifier.DESCRIPTOR_ID, Component.DESCRIPTOR_ID,
   TerrestrialDeliverySystem.DESCRIPTOR_ID, Subtitling.DESCRIPTOR_ID,
   PrivateDataSpecifier.DESCRIPTOR_ID, DataBroadcastId.DESCRIPTOR_ID,
   Ac3.DESCRIPTOR_ID, ApplicationSignalling.DESCRIPTOR_ID,
   EnhancedAc3.DESCRIPTOR_ID, Extension.DESCRIPTOR_ID, LogicalChannel.DESCRIPTOR_ID]

/-- The `while offset < buf.len()` loop of `Descriptor::read_many`,
suffix-structured: tag byte, length byte (`buf[offset + 1]`, panicking on a
lone trailing byte), then exactly `length` bytes of payload (the slice
`&buf[offset+2..offset+2+length]`, panicking when it overruns).  `fuel`
bounds the iteration count; each iteration consumes at least two bytes, so
the byte count is enough fuel. -/
def readManyGo : Nat → List Nat → Option (List Descriptor)
  | _, [] => some []
  | 0, _ => none
  | _ + 1, [_] => none
  | fuel + 1, descriptor_id :: length :: rest1 =>
    if length ≤ rest1.length then
      match Descriptor.read descriptor_id (rest1.take length) with
      | none => none
      | some d =>
        match readManyGo fuel (rest1.drop length) with
        | none => none
        | some ds => some (d :: ds)
    else none

/-- `Descriptor::read_many`. -/
def Descriptor.read_many (buf : List Nat) : Option (List Descriptor) :=
  readManyGo buf.length buf

/-- `Descriptor::descriptor_id`: the variant-to-tag map.  The
`LogicalChannel` arm returns `extension::DESCRIPTOR_ID`, exactly as the
source does (`mpeg/descriptors/mod.rs` line 150). -/
def Descriptor.descriptor_id : Descriptor → Nat
  | .Iso639Language _ => Iso639Language.DESCRIPTOR_ID
  | .CarouselIdentifier _ => CarouselIdentifier.DESCRIPTOR_ID
  | .NetworkName _ => NetworkName.DESCRIPTOR_ID
  | .ServiceList _ => ServiceList.DESCRIPTOR_ID
  | .Service _ => Service.DESCRIPTOR_ID
  | .Component _ => Component.DESCRIPTOR_ID
  | .StreamIdentifier _ => StreamIdentifier.DESCRIPTOR_ID
  | .Subtitling _ => Subtitling.DESCRIPTOR_ID
  | .TerrestrialDeliverySystem _ => TerrestrialDeliverySystem.DESCRIPTOR_ID
  | .PrivateDataSpecifier _ => PrivateDataSpecifier.DESCRIPTOR_ID
  | .DataBroadcastId _ => DataBroadcastId.DESCRIPTOR_ID
  | .Ac3 _ => Ac3.DESCRIPTOR_ID
  | .ApplicationSignalling _ => ApplicationSignalling.DESCRIPTOR_ID
  | .EnhancedAc3 _ => EnhancedAc3.DESCRIPTOR_ID
  | .Extension _ => Extension.DESCRIPTOR_ID
  | .LogicalChannel _ => Extension.DESCRIPTOR_ID
  | ._Unknown u => u.descriptor_id

/-!
## Tables (`si/pmt.rs`, `si/nit.rs`, `si/sdt.rs`) and frontend enums
-/

/-- `frontend/sys/mod.rs` `FeDeliverySystem`. -/
inductive FeDeliverySystem where
  | UNDEFINED
  | DVBC_ANNEX_A
  | DVBC_ANNEX_B
  | DVBT
  | DSS
  | DVBS
  | DVBS2
  | DVBH
  | ISDBT
  | ISDBS
  | ISDBC
  | ATSC
  | ATSCMH
  | DTMB
  | CMMB
  | DAB
  | DVBT2
  | TURBO
  | DVBC_ANNEX_C
  | DVBC2
deriving DecidableEq

/-- `si/pmt.rs` `StreamType`. -/
inductive StreamType where
  | ItuTIsoIecReserved
  | IsoIec11172Video
  | ItuTRecH262IsoIec13818_2VideoOrIsoIec11172_2ConstrainedParameterVideoStream
  | IsoIec11172Audio
  | IsoIec13818_3Audio
  | ItuTRecH2220IsoIec13818_1PrivateSections
  | ItuTRecH2220IsoIec13818_1PESPacketsContainingPrivateData
  | IsoIec13522Mheg
  | ItuTRecH2220IsoIec13818_1AnnexADsmCC
  | ItuTRecH2221
  | IsoIec13818_6TypeA
  | IsoIec13818_6TypeB
  | IsoIec13818_6TypeC
  | IsoIec13818_6TypeD
  | ItuTRecH2220IsoIec13818_1Auxiliary
  | IsoIec13818_7AudioWithAdtsTransportSyntax
  | IsoIec14496_2Visual
  | IsoIec14496_3AudioWithTheLatmTransportSyntaxAsDefinedInIsoIec14496_3Amd1
  | IsoIec14496_1SlPacketizedStreamOrFlexMuxStreamCarriedInPesPackets
  | IsoIec14496_1SlPacketizedStreamOrFlexMusStreamCarriedInIsoIec14496Sections
  | IsoIec13818_6SynchronizedDownloadProtocol
  | IsoIec14496_10AVCVideo
  | IsoIec23008_2H265
  | ItuTRecH2220IsoIec13818_1Reserved (value : Nat)
  | UserPrivate (value : Nat)
deriving DecidableEq

/-- `StreamType::from_u8`. -/
def StreamType.from_u8 (value : Nat) : StreamType :=
  if value = 0x00 then .ItuTIsoIecReserved
  else if value = 0x01 then .IsoIec11172Video
  else if value = 0x02 then
    .ItuTRecH262IsoIec13818_2VideoOrIsoIec11172_2ConstrainedParameterVideoStream
  else if value = 0x03 then .IsoIec11172Audio
  else if value = 0x04 then .IsoIec13818_3Audio
  else if value = 0x05 then .ItuTRecH2220IsoIec13818_1PrivateSections
  else if value = 0x06 then .ItuTRecH2220IsoIec13818_1PESPacketsContainingPrivateData
  else if value = 0x07 then .IsoIec13522Mheg
  else if value = 0x08 then .ItuTRecH2220IsoIec13818_1AnnexADsmCC
  else if value = 0x09 then .ItuTRecH2221
  else if value = 0x0A then .IsoIec13818_6TypeA
  else if value = 0x0B then .IsoIec13818_6TypeB
  else if value = 0x0C then .IsoIec13818_6TypeC
  else if value = 0x0D then .IsoIec13818_6TypeD
  else if value = 0x0E then .ItuTRecH2220IsoIec13818_1Auxiliary
  else if value = 0x0F then .IsoIec13818_7AudioWithAdtsTransportSyntax
  else if value = 0x10 then .IsoIec14496_2Visual
  else if value = 0x11 then
    .IsoIec14496_3AudioWithTheLatmTransportSyntaxAsDefinedInIsoIec14496_3Amd1
  else if value = 0x12 then .IsoIec14496_1SlPacketizedStreamOrFlexMuxStreamCarriedInPesPackets
  else if value = 0x13 then
    .IsoIec14496_1SlPacketizedStreamOrFlexMusStreamCarriedInIsoIec14496Sections
  else if value = 0x14 then .IsoIec13818_6SynchronizedDownloadProtocol
  else if value = 0x1B then .IsoIec14496_10AVCVideo
  else if value = 0x24 then .IsoIec23008_2H265
  else if 0x15 ≤ value ∧ value < 0x7F then .ItuTRecH2220IsoIec13818_1Reserved value
  else .UserPrivate value

/-- `StreamType::to_u8`. -/
def StreamType.to_u8 : StreamType → Nat
  | .ItuTIsoIecReserved => 0x00
  | .IsoIec11172Video => 0x01
  | .ItuTRecH262IsoIec13818_2VideoOrIsoIec11172_2ConstrainedParameterVideoStream => 0x02
  | .IsoIec11172Audio => 0x03
  | .IsoIec13818_3Audio => 0x04
  | .ItuTRecH2220IsoIec13818_1PrivateSections => 0x05
  | .ItuTRecH2220IsoIec13818_1PESPacketsContainingPrivateData => 0x06
  | .IsoIec13522Mheg => 0x07
  | .ItuTRecH2220IsoIec13818_1AnnexADsmCC => 0x08
  | .ItuTRecH2221 => 0x09
  | .IsoIec13818_6TypeA => 0x0A
  | .IsoIec13818_6TypeB => 0x0B
  | .IsoIec13818_6TypeC => 0x0C
  | .IsoIec13818_6TypeD => 0x0D
  | .ItuTRecH2220IsoIec13818_1Auxiliary => 0x0E
  | .IsoIec13818_7AudioWithAdtsTransportSyntax => 0x0F
  | .IsoIec14496_2Visual => 0x10
  | .IsoIec14496_3AudioWithTheLatmTransportSyntaxAsDefinedInIsoIec14496_3Amd1 => 0x11
  | .IsoIec14496_1SlPacketizedStreamOrFlexMuxStreamCarriedInPesPackets => 0x12
  | .IsoIec14496_1SlPacketizedStreamOrFlexMusStreamCarriedInIsoIec14496Sections => 0x13
  | .IsoIec13818_6SynchronizedDownloadProtocol => 0x14
  | .IsoIec14496_10AVCVideo => 0x1B
  | .IsoIec23008_2H265 => 0x24
  | .ItuTRecH2220IsoIec13818_1Reserved x => x
  | .UserPrivate x => x

/-- `StreamType::is_video`. -/
def StreamType.is_video : StreamType → Bool
  | .IsoIec11172Video => true
  | .ItuTRecH262IsoIec13818_2VideoOrIsoIec11172_2ConstrainedParameterVideoStream => true
  | .IsoIec14496_10AVCVideo => true
  | .IsoIec23008_2H265 => true
  | _ => false

/-- `si/pmt.rs` `ElementaryStream`. -/
structure ElementaryStream where
  stream_type : StreamType
  elementary_pid : Nat
  descriptors : List Descriptor
deriving DecidableEq

/-- `si/pmt.rs` `ProgramMapTable` (`ProgramMap` in the `scan.rs` imports). -/
structure ProgramMapTable where
  program_number : Nat
  pcr_pid : Nat
  program_info_descriptors : List Descriptor
  elementary_streams : List ElementaryStream
deriving DecidableEq

/-- `si/nit.rs` `NitElement`. -/
structure NitElement where
  transport_stream_id : Nat
  original_network_id : Nat
  transport_descriptors : List Descriptor
deriving DecidableEq

/-- `si/nit.rs` `NetworkInformationTable` (`NetworkInformation` in the
`scan.rs` imports). -/
structure NetworkInformationTable where
  network_descriptors : List Descriptor
  elements : List NitElement
deriving DecidableEq

/-- `si/sdt.rs` `Service` (one SDT service entry; named `SdtService` here to
keep it apart from the service *descriptor* type). -/
structure SdtService where
  service_id : Nat
  eit_schedule : Bool
  eit_present_following : Bool
  running_status : Nat
  free_ca_mode : Bool
  descriptors : List Descriptor
deriving DecidableEq

/-- `si/sdt.rs` `ServiceDescription` (the SDT; `interpret.rs` reads it from
the transponder field `service_description_table`). -/
structure ServiceDescription where
  original_network_id : Nat
  services : List SdtService
deriving DecidableEq

/-!
## Signal strength (`frontend/properties/get.rs`) and the transponder
-/

/-- `frontend/properties/get.rs` `ValueStat`. -/
inductive ValueStat where
  | Decibel (v : Int)
  | Relative (v : Nat)
deriving DecidableEq

/-- `frontend/properties/get.rs` `SignalStrength(pub Option<ValueStat>)`. -/
structure SignalStrength where
  val : Option ValueStat
deriving DecidableEq

/-- Modelled from the spec: the `PartialOrd` implementation that
`scan_channel`'s `strength.partial_cmp(&prev_transponder.strength)` uses is
not among the staged sources (only its caller is).  Per the spec (§4.3), two
measurements of the same scale kind compare numerically, and measurements of
different scale kinds (or unavailable ones) are not comparable (`None`). -/
def SignalStrength.partial_cmp : SignalStrength → SignalStrength → Option Ordering
  | ⟨some (.Decibel a)⟩, ⟨some (.Decibel b)⟩ => some (compare a b)
  | ⟨some (.Relative a)⟩, ⟨some (.Relative b)⟩ => some (compare a b)
  | _, _ => none

/-- `scan.rs` `Transponder`.  The table payloads use the `si/*.rs` type
names; `interpret.rs`'s snapshot spells the last two fields
`service_description_table` and `network_information_table`. -/
structure Transponder where
  frequency : Nat
  system : FeDeliverySystem
  bandwidth : BandwidthHz
  strength : SignalStrength
  program_map : List ProgramMapTable
  service_description : ServiceDescription
  network_information : NetworkInformationTable
deriving DecidableEq

/-!
## VDR channel-config types (`conf/vdr/*.rs`)
-/

/-- `conf/vdr/video_pid.rs` `VideoPID`. -/
structure VideoPID where
  pcr_pid : Nat
  video_pid : Option Nat
  /-- Not shown when 0. -/
  video_mode : Nat
deriving DecidableEq

/-- `conf/vdr/audio_pid.rs` `AudioPID`.  The decoded strings are lists of
Unicode code points. -/
structure AudioPID where
  pid : Nat
  language_code : List Nat
  second_language_code : List Nat
  audio_type : Option Nat
deriving DecidableEq

/-- `conf/vdr/audio_pid.rs` `AudioPIDList`. -/
structure AudioPIDList where
  regular_pids : List AudioPID
  dolby_pids : List AudioPID
deriving DecidableEq

/-!
## Channel projection (`interpret.rs`)
-/

/-- `interpret.rs` `ChannelInformation`. -/
structure ChannelInformation where
  frequency : Nat
  bandwidth : BandwidthHz
  delivery_system : FeDeliverySystem
  symbol_rate : Option Nat
  name : List Nat
  logical_channel_number : Option Nat
  service_id : Nat
  original_network_id : Nat
  transport_stream_id : Nat
  video_pid : VideoPID
  audio_pid_list : AudioPIDList
deriving DecidableEq

/-- Whether a NIT element's transport descriptors contain a ServiceList
entry for `service_id` (the inner loops of
`find_nit_element_by_service_id`). -/
def nitElementReferences (element : NitElement) (service_id : Nat) : Bool :=
  element.transport_descriptors.any fun d =>
    match d with
    | .ServiceList service_list => service_list.services.any (fun e => e.service_id == service_id)
    | _ => false

/-- `interpret.rs` `find_nit_element_by_service_id`: the first NIT element
whose ServiceList descriptors mention the service. -/
def find_nit_element_by_service_id (nit : NetworkInformationTable) (service_id : Nat) :
    Option NitElement :=
  nit.elements.find? (fun element => nitElementReferences element service_id)

/-- `interpret.rs` `find_lcn_from_nit_element_by_service_id`. -/
def find_lcn_from_nit_element_by_service_id (nit_elements : NitElement) (service_id : Nat) :
    Option Nat :=
  nit_elements.transport_descriptors.findSome? fun d =>
    match d with
    | .LogicalChannel logical_channel =>
      (logical_channel.elements.find? (fun e => e.service_id == service_id)).map
        (fun e => e.logical_channel_number)
    | _ => none

/-- `interpret.rs` `find_pmt_by_service_id`. -/
def find_pmt_by_service_id (program_map : List ProgramMapTable) (service_id : Nat) :
    Option ProgramMapTable :=
  program_map.find? (fun e => e.program_number == service_id)

/-- `interpret.rs` `pmt_to_video_pid`: the first elementary stream whose type
`is_video()`; `None` when the PMT has no video stream. -/
def pmt_to_video_pid (pmt_element : ProgramMapTable) : Option VideoPID :=
  pmt_element.elementary_streams.findSome? fun elementary_stream =>
    if elementary_stream.stream_type.is_video then
      some
        { pcr_pid := pmt_element.pcr_pid
          video_pid :=
            if pmt_element.pcr_pid ≠ elementary_stream.elementary_pid then
              some elementary_stream.elementary_pid
            else
              none
          video_mode := elementary_stream.stream_type.to_u8 }
    else
      none

/-- The language-code scan of `pmt_to_audio_pids`: the last Iso639Language
descriptor wins (`language_code` is overwritten each time, no `break`), the
default is the empty string. -/
def audioLanguageCode (descriptors : List Descriptor) : Option (List Nat) :=
  match descriptors.foldl
    (fun acc d => match d with | .Iso639Language lang => some lang.language | _ => acc)
    none with
  | none => some []
  | some raw => decode_stupid_string raw

/-- The descriptor scan of the private-stream (Dolby) branch of
`pmt_to_audio_pids`: an AC-3 descriptor sets the audio type and breaks; an
Enhanced-AC-3 descriptor sets it and keeps scanning.  Both record
`descriptor.descriptor_id()`. -/
def dolbyAudioType (acc : Option Nat) : List Descriptor → Option Nat
  | [] => acc
  | d :: rest =>
    match d with
    | .Ac3 _ => some (Descriptor.descriptor_id d)
    | .EnhancedAc3 _ => dolbyAudioType (some (Descriptor.descriptor_id d)) rest
    | _ => dolbyAudioType acc rest

/-- The elementary-stream loop of `pmt_to_audio_pids`: the regular and Dolby
PID lists accumulated in stream order.  `none` models the
`decode_stupid_string(..).unwrap()` panic (which in fact cannot fire). -/
def audio_pids_go : List ElementaryStream → Option (List AudioPID × List AudioPID)
  | [] => some ([], [])
  | elementary_stream :: rest =>
    match audioLanguageCode elementary_stream.descriptors with
    | none => none
    | some language_code =>
      match audio_pids_go rest with
      | none => none
      | some (regular_pids, dolby_pids) =>
        match elementary_stream.stream_type with
        | .IsoIec11172Audio | .IsoIec13818_3Audio =>
          some (⟨elementary_stream.elementary_pid, language_code, [],
            some elementary_stream.stream_type.to_u8⟩ :: regular_pids, dolby_pids)
        | .ItuTRecH2220IsoIec13818_1PrivateSections
        | .ItuTRecH2220IsoIec13818_1PESPacketsContainingPrivateData =>
          match dolbyAudioType none elementary_stream.descriptors with
          | none => some (regular_pids, dolby_pids)
          | some audio_type =>
            some (regular_pids, ⟨elementary_stream.elementary_pid, language_code, [],
              some audio_type⟩ :: dolby_pids)
        | _ => some (regular_pids, dolby_pids)

/-- `interpret.rs` `pmt_to_audio_pids`. -/
def pmt_to_audio_pids (pmt_element : ProgramMapTable) : Option AudioPIDList :=
  match audio_pids_go pmt_element.elementary_streams with
  | none => none
  | some (regular_pids, dolby_pids) => some ⟨regular_pids, dolby_pids⟩

/-- The first `Descriptor::Service` among a service's descriptors (the
service-descriptor search loop of `from_transponder`, which breaks at the
first hit). -/
def findServiceDescriptor (descriptors : List Descriptor) : Option Service :=
  descriptors.findSome? fun d =>
    match d with
    | .Service service => some service
    | _ => none

/-- The per-service loop of `ChannelInformation::from_transponder`: a service
without a Service descriptor, a referencing NIT element, or a matching PMT is
skipped (`continue`); `none` models the `pmt_to_video_pid(..).unwrap()` panic
(and, formally, the unreachable `unwrap` in the audio scan). -/
def from_transponder_go (transponder : Transponder) :
    List SdtService → Option (List ChannelInformation)
  | [] => some []
  | service :: rest =>
    match findServiceDescriptor service.descriptors with
    | none => from_transponder_go transponder rest
    | some service_data =>
      match find_nit_element_by_service_id transponder.network_information
          service.service_id with
      | none => from_transponder_go transponder rest
      | some nit_element =>
        match find_pmt_by_service_id transponder.program_map service.service_id with
        | none => from_transponder_go transponder rest
        | some pmt_element =>
          match pmt_to_video_pid pmt_element with
          | none => none
          | some video_pid =>
            match pmt_to_audio_pids pmt_element with
            | none => none
            | some audio_pid_list =>
              match from_transponder_go transponder rest with
              | none => none
              | some channels =>
                some
                  ({ frequency := transponder.frequency
                     bandwidth := transponder.bandwidth
                     delivery_system := transponder.system
                     symbol_rate := none
                     name := service_data.service
                     logical_channel_number :=
                       find_lcn_from_nit_element_by_service_id nit_element service.service_id
                     service_id := service.service_id
                     original_network_id := transponder.service_description.original_network_id
                     transport_stream_id := nit_element.transport_stream_id
                     video_pid := video_pid
                     audio_pid_list := audio_pid_list } :: channels)

/-- `ChannelInformation::from_transponder`. -/
def ChannelInformation.from_transponder (transponder : Transponder) :
    Option (List ChannelInformation) :=
  from_transponder_go transponder transponder.service_description.services

/-- The comparator closure of `sort_by_lcn`, arm for arm. -/
def lcn_compare (a b : ChannelInformation) : Ordering :=
  match a.logical_channel_number, b.logical_channel_number with
  | some a, some b => compare a b
  | some _, _ => .gt
  | _, some _ => .lt
  | _, _ => .eq

/-- `interpret.rs` `sort_by_lcn`: a stable sort by `lcn_compare`
(`slice::sort_by` is stable; the stable insertion sort realizes it). -/
def sort_by_lcn (channels : List ChannelInformation) : List ChannelInformation :=
  channels.insertionSort (fun a b => lcn_compare a b ≠ .gt)

/-- A channel record without a logical channel number. -/
def lcnChannelNone : ChannelInformation :=
  { frequency := 474000000, bandwidth := ._8MHz, delivery_system := .DVBT,
    symbol_rate := none, name := [], logical_channel_number := none,
    service_id := 1, original_network_id := 1, transport_stream_id := 1,
    video_pid := ⟨100, none, 2⟩, audio_pid_list := ⟨[], []⟩ }

/-- A channel record with logical channel number 5. -/
def lcnChannelFive : ChannelInformation :=
  { lcnChannelNone with logical_channel_number := some 5, service_id := 2 }

/-- An SDT service (id 1) carrying a Service descriptor. -/
def noVideoService : SdtService :=
  ⟨1, false, false, 4, false, [.Service ⟨.DigitalTelevision, [], [84, 70, 49]⟩]⟩

/-- A PMT for program 1 with no elementary streams (hence no video). -/
def noVideoPmt : ProgramMapTable := ⟨1, 100, [], []⟩

/-- A NIT whose single element's ServiceList references service 1. -/
def noVideoNit : NetworkInformationTable :=
  ⟨[], [⟨7, 1, [.ServiceList ⟨[⟨1, .DigitalTelevision⟩]⟩]⟩]⟩

/-- A transponder whose only service reaches the video step with no video stream. -/
def noVideoTransponder : Transponder :=
  ⟨474000000, .DVBT, ._8MHz, ⟨some (.Decibel (-300))⟩, [noVideoPmt],
    ⟨1, [noVideoService]⟩, noVideoNit⟩

/-!
## Transponder deduplication (`scan.rs` `scan_channel`, lines 101–116 and 179–190)
-/

/-- The deduplicate-and-insert step of `scan_channel`: after the PAT has been
received (`transport_stream_id` is the PAT section's identifier) and the
signal strength queried, the map of found transponders is updated.  The
NIT/PMT/SDT acquisition and parsing that the source performs between the
comparison and the insert are abstracted as the `program_map`,
`service_description` and `network_information` arguments.  `none` models the
`panic!()` on incomparable strengths; the early `return` on an
equal-or-weaker observation leaves the map unchanged.  The
`HashMap<u16, Transponder>` is modelled as a function map. -/
def scan_channel_dedup (found_transponders : Nat → Option Transponder)
    (transport_stream_id : Nat) (strength : SignalStrength)
    (frequency : Nat) (system : FeDeliverySystem) (bandwidth : BandwidthHz)
    (program_map : List ProgramMapTable) (service_description : ServiceDescription)
    (network_information : NetworkInformationTable) :
    Option (Nat → Option Transponder) :=
  let inserted : Nat → Option Transponder := fun k =>
    if k = transport_stream_id then
      some ⟨frequency, system, bandwidth, strength, program_map, service_description,
        network_information⟩
    else
      found_transponders k
  match found_transponders transport_stream_id with
  | some prev_transponder =>
    match strength.partial_cmp prev_transponder.strength with
    | some .gt => some inserted
    | some .lt | some .eq => some found_transponders
    | none => none
  | none => some inserted

/-!
## Batched section acquisition (`demux.rs`), as an event trace
-/

/-- The slice of `rdvb_os_linux`'s `DmxFilter` that `filter_one` uses: an
optional first-byte (table id) match. -/
structure DmxFilter where
  first_byte : Option Nat
deriving DecidableEq

/-- `DmxFilter::default()`: no match. -/
def DmxFilter.default : DmxFilter := ⟨none⟩

/-- `DmxFilter::first_byte_mask`. -/
def DmxFilter.first_byte_mask (_ : DmxFilter) (table_id : Nat) : DmxFilter :=
  ⟨some table_id⟩

/-- `DmxSctFilterParams` as `filter_one` fills it in. -/
structure DmxSctFilterParams where
  pid : Nat
  filter : DmxFilter
  timeout : Nat
  flags : Nat
deriving DecidableEq

def DMX_CHECK_CRC : Nat := 1

def DMX_ONESHOT : Nat := 2

def DMX_IMMEDIATE_START : Nat := 4

/-- `demux.rs` `PidTableIdPair`. -/
structure PidTableIdPair where
  pid : Nat
  table_id : Option Nat
deriving DecidableEq

/-- The filter parameters `Demux::filter_one` sets up: optional first-byte
(table id) match, timeout in milliseconds (`0` when `None`), and the
`DMX_CHECK_CRC | DMX_ONESHOT | DMX_IMMEDIATE_START` flags. -/
def filter_one_params (pid : Nat) (table_id : Option Nat) (timeout : Option Nat) :
    DmxSctFilterParams :=
  { pid := pid
    filter :=
      match table_id with
      | some t => DmxFilter.default.first_byte_mask t
      | none => DmxFilter.default
    timeout := timeout.getD 0
    flags := DMX_CHECK_CRC ||| DMX_ONESHOT ||| DMX_IMMEDIATE_START }

/-- The device operations `receive_multiple_single_packets` performs, in
order.  The index identifies the demux handle (its position in the request
list). -/
inductive DemuxEvent where
  | openDevice (index : Nat)
  | set_filter (index : Nat) (params : DmxSctFilterParams)
  | readPacket (index : Nat)
deriving DecidableEq

/-- The environment a run of `receive_multiple_single_packets` observes:
whether the i-th `Demux::new` succeeds, and what the blocking read on the
i-th handle returns (`none` for an I/O error, which `?` propagates). -/
structure DemuxEnv where
  openOk : Nat → Bool
  readResult : Nat → Option Packet

/-- The setup loop of `receive_multiple_single_packets`: one `Demux::new`
plus one `filter_one` per requested pair, in request order, stopping at the
first failed open (the `?` operator). -/
def setupFilters (env : DemuxEnv) (timeout : Option Nat) :
    Nat → List PidTableIdPair → List DemuxEvent × Bool
  | _, [] => ([], true)
  | i, pair :: rest =>
    if env.openOk i then
      let (trace, ok) := setupFilters env timeout (i + 1) rest
      (.openDevice i :: .set_filter i (filter_one_params pair.pid pair.table_id timeout)
        :: trace, ok)
    else
      ([.openDevice i], false)

/-- The read loop of `receive_multiple_single_packets`: one blocking read per
demux handle, in request order, stopping at the first failed read. -/
def readAllFilters (env : DemuxEnv) : Nat → Nat → List DemuxEvent × Option (List Packet)
  | _, 0 => ([], some [])
  | i, n + 1 =>
    match env.readResult i with
    | none => ([.readPacket i], none)
    | some p =>
      let (trace, res) := readAllFilters env (i + 1) n
      (.readPacket i :: trace, res.map (p :: ·))

/-- `receive_multiple_single_packets`: set up every filter, then read them
all back; the trace records the device operations in program order. -/
def receive_multiple_single_packets (env : DemuxEnv) (pairs : List PidTableIdPair)
    (timeout : Option Nat) : List DemuxEvent × Option (List Packet) :=
  let (setupTrace, ok) := setupFilters env timeout 0 pairs
  if ok then
    let (readTrace, res) := readAllFilters env 0 pairs.length
    (setupTrace ++ readTrace, res)
  else
    (setupTrace, none)

/-- A placeholder packet for indexing defaults in theorem statements. -/
def defaultPacket : Packet := ⟨⟨0, false, 0, 0, 0, false, 0, 0⟩, [], 0⟩

/-!
## Lock polling (`frontend/mod.rs` `Frontend::wait_for_lock`)
-/

/-- The poll loop of `Frontend::wait_for_lock`, over an injected clock:
`has_lock k` is the status of the k-th poll, and the elapsed time at the k-th
poll is `k * poll_interval` (the `sleep(poll_interval)` at the end of each
iteration is the loop's only time progression).  The loop order is the
source's: check the lock, then the timeout, then sleep.  `fuel` bounds the
number of polls; `none` means the loop is still running after `fuel` polls
(with no timeout and no lock it runs forever). -/
def wait_for_lock_go (has_lock : Nat → Bool) (timeout : Option Nat) (poll_interval : Nat) :
    Nat → Nat → Option Bool
  | _, 0 => none
  | k, fuel + 1 =>
    if has_lock k then some true
    else
      match timeout with
      | some t =>
        if k * poll_interval > t then some false
        else wait_for_lock_go has_lock timeout poll_interval (k + 1) fuel
      | none => wait_for_lock_go has_lock timeout poll_interval (k + 1) fuel

/-- `Frontend::wait_for_lock`: the poll interval defaults to 50 ms. -/
def wait_for_lock (has_lock : Nat → Bool) (timeout poll_interval : Option Nat)
    (fuel : Nat) : Option Bool :=
  wait_for_lock_go has_lock timeout (poll_interval.getD 50) 0 fuel

/-- An always-succeeding demux environment. -/
def demuxEnvW : DemuxEnv := ⟨fun _ => true, fun _ => some defaultPacket⟩

/-- Two acquisition requests: the PAT pair and the SDT pair. -/
def demuxPairsW : List PidTableIdPair := [⟨0, some 0⟩, ⟨0x11, some 0x42⟩]

/-!
## Verified properties
-/

/-- Unfolding lemma for the `parse_pat` loop: starting at `offset` with
`4 * n` payload bytes left, the loop decodes exactly `n` consecutive 4-byte
entries, in stream order. -/
theorem patLoop_spec (data : List Nat) (L : Nat) (hL : L < 65536) (hlen : L ≤ data.length) :
    ∀ n offset fuel, offset + 4 * n = L → n < fuel →
      patLoop data L offset fuel =
        some ((List.range n).map (fun i => patEntryAt data (offset + 4 * i))) := by
  intro n
  induction n with
  | zero =>
    intro offset fuel h hf
    match fuel, hf with
    | f + 1, _ =>
      simp only [patLoop]
      rw [if_neg]
      · simp
      · rw [Nat.mod_eq_of_lt (by omega)]
        omega
  | succ n ih =>
    intro offset fuel h hf
    match fuel, hf with
    | f + 1, _ =>
      simp only [patLoop]
      rw [if_pos (by rw [Nat.mod_eq_of_lt (by omega)]; omega)]
      have hb : ∀ j, j < 4 → data[offset + j]? = some (data.getD (offset + j) 0) := by
        intro j hj
        have hlt : offset + j < data.length := by omega
        rw [List.getElem?_eq_getElem hlt, List.getD_eq_getElem data 0 hlt]
      have h0 := hb 0 (by omega)
      have h1 := hb 1 (by omega)
      have h2 := hb 2 (by omega)
      have h3 := hb 3 (by omega)
      simp only [Nat.add_zero] at h0
      rw [h0, h1, h2, h3]
      simp only [Option.bind_eq_bind, Option.some_bind]
      rw [ih (offset + 4) f (by omega) (by omega)]
      simp only [Option.some_bind, Option.some.injEq]
      rw [List.range_succ_eq_map, List.map_cons, List.map_map]
      refine congrArg₂ List.cons ?_ ?_
      · simp [patEntryAt]
      · refine List.map_congr_left (fun i _ => ?_)
        have harg : offset + 4 + 4 * i = offset + 4 * (Nat.succ i) := by omega
        simp [Function.comp, harg]

/-- **C10**: iterating the `FRANCE_UHF` band yields exactly 29 entries, the
first at 474,166,000 Hz / channel 21, the last at 698,166,000 Hz / channel 49,
successive frequencies 8,000,000 Hz apart. -/
theorem france_uhf_iteration :
    FRANCE_UHF.toList.length = 29 ∧
    FRANCE_UHF.toList.head? = some ⟨474166000, ._8MHz, some 21, ""⟩ ∧
    FRANCE_UHF.toList.getLast? = some ⟨698166000, ._8MHz, some 49, ""⟩ ∧
    (∀ i < 28, (FRANCE_UHF.toList.getD (i + 1) ⟨0, ._8MHz, none, ""⟩).frequency
      = (FRANCE_UHF.toList.getD i ⟨0, ._8MHz, none, ""⟩).frequency + 8000000) :=
  ⟨by decide, by decide, by decide, by decide⟩

/-- **C8** (amended): `PacketHeader::from_buf` accepts only headers whose
decoded 10-bit `section_length` (low 2 bits of byte 1, then byte 2) is at most
`0x3FD`, rejecting any larger value; and for every accepted header whose
`section_length` is at least 9, `payload_len()` returns `section_length - 9`. -/
theorem packet_header_length_invariant :
    (∀ buf h, PacketHeader.from_buf buf = some h →
      h.section_length = u16be (buf.getD 1 0 &&& 0b00000011) (buf.getD 2 0) ∧
      h.section_length ≤ 0x3FD) ∧
    (∀ buf, 0x3FD < u16be (buf.getD 1 0 &&& 0b00000011) (buf.getD 2 0) →
      PacketHeader.from_buf buf = none) ∧
    (∀ buf h, PacketHeader.from_buf buf = some h → 9 ≤ h.section_length →
      h.payload_len = some (h.section_length - 9)) := by
  refine ⟨fun buf h heq => ?_, fun buf hgt => ?_, fun buf h heq h9 => ?_⟩
  · simp only [PacketHeader.from_buf] at heq
    split_ifs at heq with h1 h2 h3
    cases heq
    refine ⟨rfl, ?_⟩
    simpa using h3
  · simp only [PacketHeader.from_buf]
    split_ifs with h1 h2
    · rfl
    · rfl
    · rfl
  · simp only [PacketHeader.from_buf] at heq
    split_ifs at heq with h1 h2 h3
    cases heq
    simp only [PacketHeader.payload_len] at h9 ⊢
    rw [if_neg (by omega)]

/-- **C8 counterexample**: the buffer `[0x42,0,0,0,0,0,0,0]` decodes to an
accepted header with `section_length = 0`, yet `payload_len()` does not return
`section_length - 9`: the `u16` subtraction underflows (a panic), so the claim
as stated fails for this accepted header. -/
theorem packet_header_payload_len_cx :
    (PacketHeader.from_buf [0x42, 0, 0, 0, 0, 0, 0, 0]).isSome = true ∧
    (PacketHeader.from_buf [0x42, 0, 0, 0, 0, 0, 0, 0]).bind PacketHeader.payload_len
      = none :=
  ⟨by decide, by decide⟩

/-- **C6**: `parse_pat` decodes the payload as consecutive 4-byte entries in
stream order — 16-bit program number, 13-bit PID (top 3 bits of the PID's
first byte masked off), `Network` for program 0 and `ProgramMap` otherwise —
and the example payload decodes to `[Network 0x10, ProgramMap 0x20]`. -/
theorem parse_pat_positional :
    (∀ (pkt : Packet) (n : Nat),
      pkt.header.payload_len = some (4 * n) → 4 * n < 65536 → 4 * n ≤ pkt.data.length →
      parse_pat pkt = some ((List.range n).map (fun i => patEntryAt pkt.data (4 * i)))) ∧
    parse_pat patExamplePacket = some [⟨0, .Network 0x10⟩, ⟨1, .ProgramMap 0x20⟩] := by
  constructor
  · intro pkt n hpl hlt hlen
    simp only [parse_pat, hpl, Option.bind_eq_bind, Option.some_bind]
    have h := patLoop_spec pkt.data (4 * n) hlt hlen n 0 (4 * n + 1) (by omega) (by omega)
    simpa using h
  · decide

/-- An unmatched descriptor tag always produces the `_Unknown` variant with
the tag and bytes unchanged. -/
theorem read_not_known_eq_unknown (t : Nat) (buf : List Nat)
    (h : t ∉ knownDescriptorTags) :
    Descriptor.read t buf = some (._Unknown ⟨t, buf⟩) := by
  simp only [knownDescriptorTags, List.mem_cons, List.not_mem_nil, or_false, not_or] at h
  obtain ⟨h1, h2, h3, h4, h5, h6, h7, h8, h9, h10, h11, h12, h13, h14, h15, h16⟩ := h
  simp only [Descriptor.read, if_neg h1, if_neg h2, if_neg h3, if_neg h4, if_neg h5,
    if_neg h6, if_neg h7, if_neg h8, if_neg h9, if_neg h10, if_neg h11, if_neg h12,
    if_neg h13, if_neg h14, if_neg h15, if_neg h16]

/-- The result of the `read_many` loop does not depend on the fuel, as long
as the fuel dominates the buffer length. -/
theorem readManyGo_congr : ∀ (f f' : Nat) (l : List Nat), l.length ≤ f → l.length ≤ f' →
    readManyGo f l = readManyGo f' l := by
  intro f
  induction f with
  | zero =>
    intro f' l h h'
    have : l = [] := List.length_eq_zero.mp (Nat.le_zero.mp h)
    subst this
    cases f' <;> rfl
  | succ f ih =>
    intro f' l h h'
    match f', l, h, h' with
    | f', [], _, _ => cases f' <;> rfl
    | f'' + 1, [x], _, _ => rfl
    | f'' + 1, id :: length :: rest1, h, h' =>
      simp only [readManyGo]
      split_ifs with hlen
      · cases hread : Descriptor.read id (rest1.take length) with
        | none => rfl
        | some d =>
          rw [ih f'' (rest1.drop length)
            (by simp only [List.length_cons, List.length_drop] at h ⊢; omega)
            (by simp only [List.length_cons, List.length_drop] at h' ⊢; omega)]
      · rfl

/-- **C5**: a descriptor tag outside the known set decodes to the `_Unknown`
variant carrying exactly that tag and the payload bytes unchanged, and
`read_many` pushes that `_Unknown` descriptor into its output like any other
descriptor — never dropping it. -/
theorem descriptor_unknown_preserved :
    (∀ t buf, t ∉ knownDescriptorTags →
      Descriptor.read t buf = some (._Unknown ⟨t, buf⟩)) ∧
    (∀ t n buf ds, t ∉ knownDescriptorTags → n ≤ buf.length →
      Descriptor.read_many (buf.drop n) = some ds →
      Descriptor.read_many (t :: n :: buf) = some (._Unknown ⟨t, buf.take n⟩ :: ds)) := by
  refine ⟨read_not_known_eq_unknown, fun t n buf ds ht hn hds => ?_⟩
  simp only [Descriptor.read_many, List.length_cons] at hds ⊢
  simp only [readManyGo]
  rw [if_pos hn, read_not_known_eq_unknown t _ ht]
  rw [readManyGo_congr (buf.length + 1) (buf.drop n).length (buf.drop n)
    (by simp only [List.length_drop]; omega) (le_refl _)]
  rw [hds]

/-- **C7**: the tag-to-variant dispatch and the variant-to-tag map are
mutually inverse for every known tag except `LogicalChannel`: a descriptor
read from tag `0x83` reports `descriptor_id() = 0x7F` (the Extension tag),
because the `LogicalChannel` arm of `Descriptor::descriptor_id` returns
`extension::DESCRIPTOR_ID` instead of `logical_channel::DESCRIPTOR_ID`. -/
theorem logical_channel_descriptor_id_bug :
    Descriptor.read 0x83 [0x00, 0x01, 0x80, 0x05] =
      some (.LogicalChannel ⟨[⟨1, true, 5⟩]⟩) ∧
    (Descriptor.read 0x83 [0x00, 0x01, 0x80, 0x05]).map Descriptor.descriptor_id
      = some Extension.DESCRIPTOR_ID ∧
    Extension.DESCRIPTOR_ID = 0x7F ∧ LogicalChannel.DESCRIPTOR_ID = 0x83 ∧
    (∀ t buf d, t ∈ knownDescriptorTags → t ≠ LogicalChannel.DESCRIPTOR_ID →
      Descriptor.read t buf = some d → Descriptor.descriptor_id d = t) := by
  refine ⟨by decide, by decide, rfl, rfl, fun t buf d ht hne heq => ?_⟩
  simp only [knownDescriptorTags, List.mem_cons, List.not_mem_nil, or_false] at ht
  rcases ht with rfl|rfl|rfl|rfl|rfl|rfl|rfl|rfl|rfl|rfl|rfl|rfl|rfl|rfl|rfl|rfl
  all_goals
    first
    | exact absurd rfl hne
    | (simp only [Descriptor.read, Iso639Language.DESCRIPTOR_ID,
        CarouselIdentifier.DESCRIPTOR_ID, NetworkName.DESCRIPTOR_ID,
        ServiceList.DESCRIPTOR_ID, Service.DESCRIPTOR_ID,
        StreamIdentifier.DESCRIPTOR_ID, Component.DESCRIPTOR_ID,
        TerrestrialDeliverySystem.DESCRIPTOR_ID, Subtitling.DESCRIPTOR_ID,
        PrivateDataSpecifier.DESCRIPTOR_ID, DataBroadcastId.DESCRIPTOR_ID,
        Ac3.DESCRIPTOR_ID, ApplicationSignalling.DESCRIPTOR_ID,
        EnhancedAc3.DESCRIPTOR_ID, Extension.DESCRIPTOR_ID,
        LogicalChannel.DESCRIPTOR_ID] at heq;
       norm_num at heq;
       obtain ⟨v, hv, rfl⟩ := heq; rfl)

/-- The sort comparator is transitive (as a non-strict relation). -/
theorem lcn_compare_le_trans (a b c : ChannelInformation)
    (hab : lcn_compare a b ≠ .gt) (hbc : lcn_compare b c ≠ .gt) :
    lcn_compare a c ≠ .gt := by
  rcases ha : a.logical_channel_number with _ | x <;>
    rcases hb : b.logical_channel_number with _ | y <;>
    rcases hc : c.logical_channel_number with _ | z <;>
    simp_all [lcn_compare, Nat.compare_eq_gt]
  all_goals omega

/-- The sort comparator is total. -/
theorem lcn_compare_le_total (a b : ChannelInformation) :
    lcn_compare a b ≠ .gt ∨ lcn_compare b a ≠ .gt := by
  rcases ha : a.logical_channel_number with _ | x <;>
    rcases hb : b.logical_channel_number with _ | y <;>
    simp_all [lcn_compare, Nat.compare_eq_gt]
  all_goals omega

/-- **C1** (amended): `sort_by_lcn` permutes the input so that entries with a
logical channel number appear in ascending order of that number, entries
without one are placed **before** all entries that have one, and sorting an
already-sorted list changes nothing (`sort(sort(x)) = sort(x)`). -/
theorem sort_by_lcn_spec (l : List ChannelInformation) :
    (sort_by_lcn l).Perm l ∧
    List.Pairwise (fun a b : ChannelInformation =>
      match a.logical_channel_number, b.logical_channel_number with
      | some x, some y => x ≤ y
      | none, _ => True
      | some _, none => False) (sort_by_lcn l) ∧
    sort_by_lcn (sort_by_lcn l) = sort_by_lcn l := by
  haveI : IsTotal ChannelInformation (fun a b => lcn_compare a b ≠ .gt) :=
    ⟨lcn_compare_le_total⟩
  haveI : IsTrans ChannelInformation (fun a b => lcn_compare a b ≠ .gt) :=
    ⟨lcn_compare_le_trans⟩
  refine ⟨List.perm_insertionSort _ l, ?_, ?_⟩
  · refine (List.sorted_insertionSort _ l).imp fun {a b} hab => ?_
    rcases ha : a.logical_channel_number with _ | x <;>
      rcases hb : b.logical_channel_number with _ | y <;>
      simp_all [lcn_compare, Nat.compare_eq_gt]
  · exact (List.sorted_insertionSort _ l).insertionSort_eq

/-- **C1 counterexample**: sorting a record without a logical channel number
together with one numbered 5 leaves the unnumbered record **first**, not
after the numbered one as the claim states. -/
theorem sort_by_lcn_none_first_cx :
    sort_by_lcn [lcnChannelNone, lcnChannelFive] = [lcnChannelNone, lcnChannelFive] ∧
    lcnChannelNone.logical_channel_number = none ∧
    lcnChannelFive.logical_channel_number = some 5 ∧
    sort_by_lcn [lcnChannelNone, lcnChannelFive] ≠ [lcnChannelFive, lcnChannelNone] :=
  ⟨by decide, rfl, rfl, by decide⟩

/-- A PMT with no video elementary stream yields no video PID. -/
theorem pmt_to_video_pid_none (pmt : ProgramMapTable)
    (h : ∀ es ∈ pmt.elementary_streams, es.stream_type.is_video = false) :
    pmt_to_video_pid pmt = none := by
  simp only [pmt_to_video_pid, List.findSome?_eq_none_iff]
  intro es hes
  simp [h es hes]

/-- If any service in the list reaches the video-PID step (it has a Service
descriptor, a referencing NIT element and a matching PMT) but its PMT has no
video stream, the whole projection loop panics (`none`). -/
theorem from_transponder_go_none (t : Transponder) (service : SdtService)
    (hdesc : (findServiceDescriptor service.descriptors).isSome)
    (hnit : (find_nit_element_by_service_id t.network_information service.service_id).isSome)
    (pmt : ProgramMapTable)
    (hpmt : find_pmt_by_service_id t.program_map service.service_id = some pmt)
    (hvideo : ∀ es ∈ pmt.elementary_streams, es.stream_type.is_video = false) :
    ∀ ss, service ∈ ss → from_transponder_go t ss = none := by
  intro ss
  induction ss with
  | nil => intro h; cases h
  | cons head rest ih =>
    intro hmem
    rcases List.mem_cons.mp hmem with rfl | hmem2
    · obtain ⟨sd, hsd⟩ := Option.isSome_iff_exists.mp hdesc
      obtain ⟨ne, hne⟩ := Option.isSome_iff_exists.mp hnit
      simp only [from_transponder_go, hsd, hne, hpmt, pmt_to_video_pid_none pmt hvideo]
    · have hrest := ih hmem2
      simp only [from_transponder_go, hrest]
      repeat' split
      all_goals rfl

/-- **C3** (amended): when some SDT service's matched PMT (the one with
`program_number == service_id`) contains no elementary stream satisfying
`is_video()` — and the service has a Service descriptor and a referencing NIT
element, so it reaches the video-PID step — `ChannelInformation::from_transponder`
does **not** skip the service: the `pmt_to_video_pid(..).unwrap()` panics, so
the whole projection fails. -/
theorem from_transponder_no_video_fails (t : Transponder) (service : SdtService)
    (hmem : service ∈ t.service_description.services)
    (hdesc : (findServiceDescriptor service.descriptors).isSome)
    (hnit : (find_nit_element_by_service_id t.network_information service.service_id).isSome)
    (pmt : ProgramMapTable)
    (hpmt : find_pmt_by_service_id t.program_map service.service_id = some pmt)
    (hvideo : ∀ es ∈ pmt.elementary_streams, es.stream_type.is_video = false) :
    ChannelInformation.from_transponder t = none :=
  from_transponder_go_none t service hdesc hnit pmt hpmt hvideo _ hmem

/-- **C3 counterexample**: on `noVideoTransponder` the projector does not
skip the video-less service and succeed with an empty channel list — it
fails (panics). -/
theorem from_transponder_no_video_cx :
    ChannelInformation.from_transponder noVideoTransponder = none ∧
    ChannelInformation.from_transponder noVideoTransponder ≠ some [] :=
  ⟨by decide, by decide⟩

/-- **C3 witness**: the amended theorem applied to the concrete transponder. -/
theorem from_transponder_no_video_fails_witness :
    ChannelInformation.from_transponder noVideoTransponder = none :=
  from_transponder_no_video_fails noVideoTransponder noVideoService (by decide)
    (by decide) (by decide) noVideoPmt (by decide) (by decide)

/-- Flipping the arguments of a linear-order comparison swaps the outcome. -/
theorem compare_swap_lin {α : Type} [LinearOrder α] (a b : α) :
    compare b a = (compare a b).swap := by
  rcases lt_trichotomy a b with h | h | h
  · rw [compare_lt_iff_lt.mpr h, compare_gt_iff_gt.mpr h]
    rfl
  · rw [compare_eq_iff_eq.mpr h, compare_eq_iff_eq.mpr h.symm]
    rfl
  · rw [compare_gt_iff_gt.mpr h, compare_lt_iff_lt.mpr h]
    rfl

/-- Flipping the arguments of the signal-strength comparison swaps the outcome. -/
theorem partial_cmp_swap (a b : SignalStrength) (o : Ordering)
    (h : a.partial_cmp b = some o) : b.partial_cmp a = some o.swap := by
  rcases a with ⟨_ | (x | x)⟩ <;> rcases b with ⟨_ | (y | y)⟩ <;>
    simp_all [SignalStrength.partial_cmp]
  all_goals rw [compare_swap_lin, h]

/-- **C2**: for every found-transponders map and a new observation of an
already-present transport stream id, the stored transponder is replaced
exactly when the new strength compares strictly greater, and kept unchanged
when it compares less or equal; hence two comparable observations with
`s1 < s2` leave the `s2` record in the map in either insertion order, and
with equal strengths the first-inserted record is retained. -/
theorem scan_dedup_strongest_wins :
    (∀ found tsid s f sys bw pm sdt nit prev,
      found tsid = some prev →
      (s.partial_cmp prev.strength = some .gt →
        scan_channel_dedup found tsid s f sys bw pm sdt nit =
          some (fun k => if k = tsid then some ⟨f, sys, bw, s, pm, sdt, nit⟩ else found k)) ∧
      (s.partial_cmp prev.strength = some .lt ∨ s.partial_cmp prev.strength = some .eq →
        scan_channel_dedup found tsid s f sys bw pm sdt nit = some found)) ∧
    (∀ found tsid s1 s2 f1 f2 sys1 sys2 bw1 bw2 pm1 pm2 sdt1 sdt2 nit1 nit2,
      found tsid = none → s1.partial_cmp s2 = some .lt →
      (((scan_channel_dedup found tsid s1 f1 sys1 bw1 pm1 sdt1 nit1).bind
          fun m => scan_channel_dedup m tsid s2 f2 sys2 bw2 pm2 sdt2 nit2).map
            (fun m => m tsid) =
        some (some ⟨f2, sys2, bw2, s2, pm2, sdt2, nit2⟩)) ∧
      (((scan_channel_dedup found tsid s2 f2 sys2 bw2 pm2 sdt2 nit2).bind
          fun m => scan_channel_dedup m tsid s1 f1 sys1 bw1 pm1 sdt1 nit1).map
            (fun m => m tsid) =
        some (some ⟨f2, sys2, bw2, s2, pm2, sdt2, nit2⟩))) ∧
    (∀ found tsid s1 s2 f1 f2 sys1 sys2 bw1 bw2 pm1 pm2 sdt1 sdt2 nit1 nit2,
      found tsid = none → s1.partial_cmp s2 = some .eq →
      ((scan_channel_dedup found tsid s1 f1 sys1 bw1 pm1 sdt1 nit1).bind
          fun m => scan_channel_dedup m tsid s2 f2 sys2 bw2 pm2 sdt2 nit2).map
            (fun m => m tsid) =
        some (some ⟨f1, sys1, bw1, s1, pm1, sdt1, nit1⟩)) := by
  refine ⟨fun found tsid s f sys bw pm sdt nit prev hfound => ⟨fun hgt => ?_, fun hle => ?_⟩,
    fun found tsid s1 s2 f1 f2 sys1 sys2 bw1 bw2 pm1 pm2 sdt1 sdt2 nit1 nit2 hnone h12 =>
      ⟨?_, ?_⟩,
    fun found tsid s1 s2 f1 f2 sys1 sys2 bw1 bw2 pm1 pm2 sdt1 sdt2 nit1 nit2 hnone h12 => ?_⟩
  · simp only [scan_channel_dedup, hfound, hgt]
  · rcases hle with hlt | heq
    · simp only [scan_channel_dedup, hfound, hlt]
    · simp only [scan_channel_dedup, hfound, heq]
  · have h21 : s2.partial_cmp s1 = some .gt := partial_cmp_swap s1 s2 .lt h12
    simp [scan_channel_dedup, hnone, h21]
  · have _h : True := trivial
    simp [scan_channel_dedup, hnone, h12]
  · have h21 : s2.partial_cmp s1 = some .eq := partial_cmp_swap s1 s2 .eq h12
    simp [scan_channel_dedup, hnone, h21]

/-- When every open succeeds, the setup loop emits one open and one filter
configuration per request, in request order. -/
theorem setupFilters_ok (env : DemuxEnv) (timeout : Option Nat) :
    ∀ (pairs : List PidTableIdPair) (i : Nat),
      (∀ j, j < pairs.length → env.openOk (i + j) = true) →
      setupFilters env timeout i pairs =
        ((List.enumFrom i pairs).flatMap fun p =>
          [.openDevice p.1, .set_filter p.1 (filter_one_params p.2.pid p.2.table_id timeout)],
         true) := by
  intro pairs
  induction pairs with
  | nil => intro i h; rfl
  | cons pair rest ih =>
    intro i h
    have h0 : env.openOk i = true := by simpa using h 0 (by simp)
    simp only [setupFilters, h0, if_true]
    rw [ih (i + 1) (fun j hj => by
      have h2 := h (j + 1) (by simpa using Nat.succ_lt_succ hj)
      have h3 : i + (j + 1) = i + 1 + j := by omega
      rwa [h3] at h2)]
    simp [List.enumFrom_cons]

/-- When every read succeeds, the read loop emits one read per handle in
order and returns the packets in that order. -/
theorem readAllFilters_ok (env : DemuxEnv) :
    ∀ (n i : Nat), (∀ j, j < n → (env.readResult (i + j)).isSome) →
      readAllFilters env i n =
        ((List.range' i n).map .readPacket,
         some ((List.range' i n).map fun j => (env.readResult j).getD defaultPacket)) := by
  intro n
  induction n with
  | zero => intro i h; rfl
  | succ n ih =>
    intro i h
    have h0 : (env.readResult i).isSome := by simpa using h 0 (by omega)
    obtain ⟨p, hp⟩ := Option.isSome_iff_exists.mp h0
    simp only [readAllFilters, hp]
    rw [ih (i + 1) (fun j hj => by
      have h2 := h (j + 1) (by omega)
      have h3 : i + (j + 1) = i + 1 + j := by omega
      rwa [h3] at h2)]
    simp [List.range'_succ, hp]

/-- **C4**: when the device cooperates, `receive_multiple_single_packets`
opens and configures one independent section filter per requested
(pid, table id) pair and completes *all* filter setups before performing any
read — the trace is all the per-request open/configure events, in request
order, followed by all the reads — and it returns one packet per filter in
the same order as the request list. -/
theorem receive_multiple_setup_before_read (env : DemuxEnv)
    (pairs : List PidTableIdPair) (timeout : Option Nat)
    (hopen : ∀ j < pairs.length, env.openOk j = true)
    (hread : ∀ j < pairs.length, (env.readResult j).isSome) :
    receive_multiple_single_packets env pairs timeout =
      ((pairs.enum.flatMap fun p =>
          [.openDevice p.1, .set_filter p.1 (filter_one_params p.2.pid p.2.table_id timeout)])
        ++ (List.range pairs.length).map .readPacket,
       some ((List.range pairs.length).map fun j => (env.readResult j).getD defaultPacket)) := by
  simp only [receive_multiple_single_packets]
  rw [setupFilters_ok env timeout pairs 0 (by simpa using hopen)]
  simp only [if_true]
  rw [readAllFilters_ok env pairs.length 0 (by simpa using hread)]
  simp [List.enum, List.range_eq_range']

/-- **C4 witness**: the trace shape evaluated on two concrete requests. -/
theorem receive_multiple_setup_before_read_witness :
    receive_multiple_single_packets demuxEnvW demuxPairsW none =
      ((demuxPairsW.enum.flatMap fun p =>
          [.openDevice p.1, .set_filter p.1 (filter_one_params p.2.pid p.2.table_id none)])
        ++ (List.range demuxPairsW.length).map .readPacket,
       some ((List.range demuxPairsW.length).map
          fun j => (demuxEnvW.readResult j).getD defaultPacket)) :=
  receive_multiple_setup_before_read demuxEnvW demuxPairsW none (by decide) (by decide)

/-- With a never-locking status and a positive poll interval, the poll loop
returns `false` exactly once the elapsed time `k * poll_interval` first
exceeds the timeout, and is still running with any smaller poll budget. -/
theorem wait_go_all_false (h : Nat → Bool) (t p : Nat) (hall : ∀ k, h k = false) (hp : 0 < p) :
    ∀ fuel k, wait_for_lock_go h (some t) p k fuel =
      if t / p + 1 - k < fuel then some false else none := by
  intro fuel
  induction fuel with
  | zero => intro k; simp [wait_for_lock_go]
  | succ fuel ih =>
    intro k
    simp only [wait_for_lock_go, hall k, Bool.false_eq_true, if_false]
    by_cases hk : k * p > t
    · rw [if_pos hk]
      have hdlt : t / p < k := (Nat.div_lt_iff_lt_mul hp).mpr (by omega)
      rw [if_pos (by omega)]
    · rw [if_neg hk, ih (k + 1)]
      have hkle : k ≤ t / p := (Nat.le_div_iff_mul_le hp).mpr (by omega)
      by_cases hc : t / p + 1 - (k + 1) < fuel
      · rw [if_pos hc, if_pos (by omega)]
      · rw [if_neg hc, if_neg (by omega)]

/-- A poll that reports lock makes the loop return `true` at that poll. -/
theorem wait_go_lock (h : Nat → Bool) (t p : Nat) :
    ∀ (fuel k k0 : Nat), k ≤ k0 → h k0 = true → (∀ j, k ≤ j → j < k0 → h j = false) →
      (∀ j, k ≤ j → j < k0 → j * p ≤ t) → k0 - k < fuel →
      wait_for_lock_go h (some t) p k fuel = some true := by
  intro fuel
  induction fuel with
  | zero => intro k k0 _ _ _ _ hf; omega
  | succ fuel ih =>
    intro k k0 hk hk0 hfalse ht hf
    rcases Nat.lt_or_ge k k0 with hlt | hge
    · simp only [wait_for_lock_go, hfalse k (le_refl k) hlt, Bool.false_eq_true, if_false]
      rw [if_neg (by have := ht k (le_refl k) hlt; omega)]
      exact ih (k + 1) k0 hlt hk0 (fun j h1 h2 => hfalse j (by omega) h2)
        (fun j h1 h2 => ht j (by omega) h2) (by omega)
    · have hkk : k = k0 := by omega
      subst hkk
      simp [wait_for_lock_go, hk0]

/-- **C9**: `wait_for_lock` polls at `poll_interval` (defaulting to 50 ms
when `None`): if the status never reports a lock it terminates — it is still
running after `t / p + 1` polls but returns `Ok(false)` on the next one, so
at least `t` (indeed strictly more) has elapsed, never fewer and never
indefinitely; and if some poll reports a lock before the timeout has expired
it returns `Ok(true)` at that poll. -/
theorem wait_for_lock_spec :
    (∀ h t fuel, wait_for_lock h t none fuel = wait_for_lock h t (some 50) fuel) ∧
    (∀ (h : Nat → Bool) t p fuel, (∀ k, h k = false) → 0 < p →
      (fuel ≤ t / p + 1 → wait_for_lock h (some t) (some p) fuel = none) ∧
      (t / p + 1 < fuel → wait_for_lock h (some t) (some p) fuel = some false) ∧
      (t / p + 1) * p > t) ∧
    (∀ (h : Nat → Bool) t p fuel k0, 0 < p → h k0 = true → (∀ j < k0, h j = false) →
      (∀ j < k0, j * p ≤ t) → k0 < fuel →
      wait_for_lock h (some t) (some p) fuel = some true) := by
  refine ⟨fun h t fuel => rfl, fun h t p fuel hall hp => ⟨?_, ?_, ?_⟩,
    fun h t p fuel k0 hp hk0 hfalse ht hf => ?_⟩
  · intro hfu
    rw [wait_for_lock]
    simp only [Option.getD_some]
    rw [wait_go_all_false h t p hall hp]
    simp only [Nat.sub_zero]
    rw [if_neg (Nat.not_lt.mpr hfu)]
  · intro hfu
    rw [wait_for_lock]
    simp only [Option.getD_some]
    rw [wait_go_all_false h t p hall hp]
    simp only [Nat.sub_zero]
    rw [if_pos hfu]
  · have h1 := Nat.div_add_mod t p
    have h2 := Nat.mod_lt t hp
    have h3 : (t / p + 1) * p = p * (t / p) + p := by ring
    omega
  · rw [wait_for_lock]
    exact wait_go_lock h t p fuel 0 k0 (Nat.zero_le _) hk0 (fun j _ h2 => hfalse j h2)
      (fun j _ h2 => ht j h2) (by omega)

end Rdvb
